import Mathlib

/-!
Shallow embedding of the MCP server lifecycle manager
(`scripts/utils/mcp-manager.py`, class `MCPServerManager`) and proofs about
its restart / monitoring / persistence behaviour.

Modelling conventions:
* Python dictionaries (`self.servers`, `self.processes`, `self.server_configs`)
  become association lists keyed by `String`, with `dictGet` / `dictSet` /
  `dictDel` mirroring `d.get(k)` / `d[k] = v` / `del d[k]`.
* OS effects are explicit.  A spawn attempt (`subprocess.Popen`) has an
  outcome supplied by the environment (`SpawnOutcome`): the spawn raises, or
  yields a PID together with whether the process is still alive after the
  1-second grace poll (`process.poll() is None`).  A graceful stop has an
  outcome (`StopOutcome`): the child exits within the 10-second wait, the
  wait times out (escalating to SIGKILL), or the signalling itself raises.
  Process liveness queries (`psutil.Process(pid).is_running()`) are an oracle
  `alive : Nat → Bool`.
* Observable side effects — `time.sleep`, `subprocess.Popen`, process-group
  signals, `process.wait(timeout=...)`, and the log line at the top of
  `restart_server` — are recorded in an action trace (`OsAction`), and every
  `_save_server_state` write is appended to a persistence log, mirroring the
  JSON fields it dumps.
* Timestamps (`datetime.now()`) are abstract `Nat`s supplied by the caller;
  float metrics (`cpu_percent`, `memory_mb`) carry no information relevant to
  any claim and are omitted from the record.
-/

/-- Runtime record of one managed server: the fields of the Python dataclass
`MCPServerStatus` (minus the float CPU/memory metrics). -/
structure MCPServerStatus where
  name : String
  status : String
  pid : Option Nat
  port : Option Nat
  command : List String
  start_time : Option Nat
  last_health_check : Option Nat := none
  error_count : Nat := 0
  restart_count : Nat := 0
deriving DecidableEq

/-- Per-server configuration: the fields of the Python dataclass
`MCPServerConfig` (environment-variable overrides omitted: they only feed the
spawned process's environment). -/
structure MCPServerConfig where
  name : String
  command : List String
  args : List String := []
  auto_start : Bool := true
  auto_restart : Bool := true
  health_check_url : Option String := none
  max_restarts : Nat := 5
  restart_delay : Nat := 5
deriving DecidableEq

/-- One persisted record, as written by `_save_server_state` and read back by
`_load_server_states`. -/
structure ServerStateRecord where
  name : String
  status : String
  pid : Option Nat
  start_time : Option Nat
  restart_count : Nat
  error_count : Nat
deriving DecidableEq

/-- Observable side effects of the manager (sleeps, spawn attempts,
process-group signals, bounded waits, and the log line marking entry into
`restart_server`). -/
inductive OsAction where
  | sleep (secs : Nat)
  | spawnProc (server : String)
  | signalGroup (pid : Nat) (sig : String)
  | waitProc (pid : Nat) (timeout : Nat)
  | restartLog (server : String)
deriving DecidableEq

/-- Outcome of a `subprocess.Popen` attempt in `start_server`: the call
raises, or produces a PID whose process is (or is not) still alive when
polled after the 1-second grace sleep. -/
inductive SpawnOutcome where
  | spawnFail
  | spawned (pid : Nat) (alive_after_grace : Bool)
deriving DecidableEq

/-- Outcome of the graceful-stop path in `stop_server`: the child exits
within `process.wait(timeout=10)`, the wait times out (forcing SIGKILL), or
the signalling raises an exception. -/
inductive StopOutcome where
  | graceful
  | timeoutKill
  | exnFail
deriving DecidableEq

/-- `d.get(k)` on a Python dict modelled as an association list. -/
def dictGet {α : Type} : List (String × α) → String → Option α
  | [], _ => none
  | (k, v) :: rest, key => if k = key then some v else dictGet rest key

/-- `d[k] = v`: replace the binding if present, else append it. -/
def dictSet {α : Type} : List (String × α) → String → α → List (String × α)
  | [], key, v => [(key, v)]
  | (k, w) :: rest, key, v =>
      if k = key then (k, v) :: rest else (k, w) :: dictSet rest key v

/-- `del d[k]`: drop the binding for `k`. -/
def dictDel {α : Type} : List (String × α) → String → List (String × α)
  | [], _ => []
  | (k, w) :: rest, key => if k = key then rest else (k, w) :: dictDel rest key

/-- The manager's mutable state (`MCPServerManager`): configurations,
runtime records, raw process handles, plus the persistence log and the
observable action trace. -/
structure ManagerState where
  server_configs : List (String × MCPServerConfig)
  servers : List (String × MCPServerStatus)
  processes : List (String × Nat)
  saved_states : List ServerStateRecord
  actions : List OsAction
deriving DecidableEq

/-- Append one observable action to the trace. -/
def pushAction (st : ManagerState) (a : OsAction) : ManagerState :=
  { st with actions := st.actions ++ [a] }

/-- `_save_server_state`: append the server's current record to the
persistence log (a no-op when the server has no runtime record, mirroring
`self.servers.get(server_name)` returning `None`). -/
def saveServerState (st : ManagerState) (server_name : String) : ManagerState :=
  match dictGet st.servers server_name with
  | none => st
  | some s =>
      { st with saved_states := st.saved_states ++
          [⟨s.name, s.status, s.pid, s.start_time, s.restart_count, s.error_count⟩] }

/-- `server_name in self.servers and self.servers[server_name].status == "running"`. -/
def alreadyRunning (st : ManagerState) (server_name : String) : Bool :=
  match dictGet st.servers server_name with
  | some s => s.status = "running"
  | none => false

/-- Body of the `try` block of `start_server`, from the `subprocess.Popen`
call onwards.  On a successful spawn the manager installs a *fresh*
`MCPServerStatus` (status `"running"`, counters at their dataclass defaults),
sleeps the 1-second grace interval, polls the child, and either persists the
record (still alive) or flips the status to `"error"` (immediate exit).  On a
raising spawn, only an already existing record is marked `"error"`. -/
def startBody (st : ManagerState) (server_name : String) (config : MCPServerConfig)
    (out : SpawnOutcome) (now : Nat) : ManagerState × Bool :=
  let st0 := pushAction st (OsAction.spawnProc server_name)
  match out with
  | SpawnOutcome.spawnFail =>
      match dictGet st0.servers server_name with
      | some s =>
          ({ st0 with servers := dictSet st0.servers server_name { s with status := "error" } },
           false)
      | none => (st0, false)
  | SpawnOutcome.spawned pid alive =>
      let st1 := { st0 with
        processes := dictSet st0.processes server_name pid,
        servers := dictSet st0.servers server_name
          ({ name := server_name, status := "running", pid := some pid, port := none,
             command := config.command ++ config.args, start_time := some now }) }
      let st2 := pushAction st1 (OsAction.sleep 1)
      if alive then
        (saveServerState st2 server_name, true)
      else
        match dictGet st2.servers server_name with
        | some s =>
            ({ st2 with
                servers := dictSet st2.servers server_name { s with status := "error" } },
             false)
        | none => (st2, false)

/-- `start_server(server_name, force)`.  Fails when the name has no
configuration; succeeds as a no-op when the server is already `"running"`
and `force` is not set; otherwise runs `startBody`. -/
def start_server (st : ManagerState) (server_name : String) (force : Bool)
    (out : SpawnOutcome) (now : Nat) : ManagerState × Bool :=
  match dictGet st.server_configs server_name with
  | none => (st, false)
  | some config =>
      if alreadyRunning st server_name = true ∧ force = false then (st, true)
      else startBody st server_name config out now

/-- Tail of `stop_server` after the signalling: set status `"stopped"`,
clear the PID, persist the record, return success. -/
def finishStop (st : ManagerState) (server_name : String) : ManagerState × Bool :=
  match dictGet st.servers server_name with
  | none => (st, true)
  | some server =>
      let st1 := { st with
        servers := dictSet st.servers server_name
          ({ server with status := "stopped", pid := none }) }
      (saveServerState st1 server_name, true)

/-- `stop_server(server_name, force)`.  No-op success when the server is
unknown or not `"running"`.  With a live process handle: `force` sends
SIGKILL to the process group immediately; otherwise SIGTERM is sent, the
manager waits up to 10 seconds, and escalates to SIGKILL on timeout.  An
exception while signalling returns failure with the state unchanged.  All
non-raising paths end `"stopped"` with the PID cleared and the record
persisted. -/
def stop_server (st : ManagerState) (server_name : String) (force : Bool)
    (out : StopOutcome) : ManagerState × Bool :=
  match dictGet st.servers server_name with
  | none => (st, true)
  | some server =>
      if server.status ≠ "running" then (st, true)
      else
        match dictGet st.processes server_name with
        | none => finishStop st server_name
        | some pid =>
            match out with
            | StopOutcome.exnFail => (st, false)
            | StopOutcome.graceful =>
                if force then
                  let st1 := pushAction st (OsAction.signalGroup pid "SIGKILL")
                  finishStop { st1 with processes := dictDel st1.processes server_name }
                    server_name
                else
                  let st1 := pushAction st (OsAction.signalGroup pid "SIGTERM")
                  let st2 := pushAction st1 (OsAction.waitProc pid 10)
                  finishStop { st2 with processes := dictDel st2.processes server_name }
                    server_name
            | StopOutcome.timeoutKill =>
                if force then
                  let st1 := pushAction st (OsAction.signalGroup pid "SIGKILL")
                  finishStop { st1 with processes := dictDel st1.processes server_name }
                    server_name
                else
                  let st1 := pushAction st (OsAction.signalGroup pid "SIGTERM")
                  let st2 := pushAction st1 (OsAction.waitProc pid 10)
                  let st3 := pushAction st2 (OsAction.signalGroup pid "SIGKILL")
                  finishStop { st3 with processes := dictDel st3.processes server_name }
                    server_name

/-- `restart_server(server_name)`: log, increment `restart_count` on the
existing runtime record (if any), stop, pause a fixed 2 seconds
(`time.sleep(2)`), then start.  Returns failure without starting when the
stop failed. -/
def restart_server (st : ManagerState) (server_name : String)
    (sOut : StopOutcome) (spOut : SpawnOutcome) (now : Nat) : ManagerState × Bool :=
  let st0 := pushAction st (OsAction.restartLog server_name)
  let st1 :=
    match dictGet st0.servers server_name with
    | some s =>
        { st0 with
          servers := dictSet st0.servers server_name
            ({ s with restart_count := s.restart_count + 1 }) }
    | none => st0
  let p := stop_server st1 server_name false sOut
  if p.2 then
    let st3 := pushAction p.1 (OsAction.sleep 2)
    start_server st3 server_name false spOut now
  else (p.1, false)

/-- Per-record body of `_update_server_metrics`: a `"running"` record with a
PID whose process has vanished is flipped to `"stopped"` with the PID
cleared; everything else is untouched (the CPU/memory refresh carries no
modelled information). -/
def update_one_metric (alive : Nat → Bool) (s : MCPServerStatus) : MCPServerStatus :=
  if s.status = "running" then
    match s.pid with
    | some p => if alive p then s else { s with status := "stopped", pid := none }
    | none => s
  else s

/-- `_update_server_metrics`, applied to every runtime record. -/
def update_server_metrics (st : ManagerState) (alive : Nat → Bool) : ManagerState :=
  { st with servers := st.servers.map (fun kv => (kv.1, update_one_metric alive kv.2)) }

/-- `get_server_status`: refresh metrics, then return the records. -/
def get_server_status (st : ManagerState) (alive : Nat → Bool) :
    ManagerState × List (String × MCPServerStatus) :=
  let st1 := update_server_metrics st alive
  (st1, st1.servers)

/-- `_health_check_server`: fail for unknown / non-`"running"` servers; for a
`"running"` server with a PID, a vanished process means status `"stopped"`,
PID cleared, check failed; otherwise (alive, or no PID recorded) the check
passes with no state change. -/
def health_check_server (st : ManagerState) (server_name : String)
    (alive : Nat → Bool) : ManagerState × Bool :=
  match dictGet st.servers server_name with
  | none => (st, false)
  | some server =>
      if server.status ≠ "running" then (st, false)
      else
        match server.pid with
        | some p =>
            if alive p then (st, true)
            else
              ({ st with
                  servers := dictSet st.servers server_name
                    ({ server with status := "stopped", pid := none }) },
               false)
        | none => (st, true)

/-- Environment of one monitor iteration: the OS process-table oracle, the
outcome of any spawn / graceful-stop the iteration performs, and the current
time. -/
structure TickEnv where
  alive : Nat → Bool
  spawn : String → SpawnOutcome
  stop_out : String → StopOutcome
  now : Nat

/-- Loop body of `_monitor_servers` for one `(name, config)` pair.  Servers
with `auto_restart` unset, or without a runtime record, are skipped.  A
non-`"running"` server with `auto_start` set is started after sleeping
`restart_delay`, but only while `restart_count < max_restarts`.  A
`"running"` server is health-checked: failure increments `error_count`, and
on reaching 3 the server is restarted and the counter cleared; success
clears the counter and stamps `last_health_check`.  (After a restart the
Python code zeroes `error_count` through its stale local reference; when the
restart installed a fresh record that write lands on a detached object whose
replacement already has `error_count = 0`, so the observable effect is to
zero the current record in every case, which is what is modelled.) -/
def monitor_one (env : TickEnv) (st : ManagerState)
    (entry : String × MCPServerConfig) : ManagerState :=
  let server_name := entry.1
  let config := entry.2
  if config.auto_restart = false then st
  else
    match dictGet st.servers server_name with
    | none => st
    | some server =>
        if config.auto_start = true ∧ server.status ≠ "running" then
          if server.restart_count < config.max_restarts then
            let st1 := pushAction st (OsAction.sleep config.restart_delay)
            (start_server st1 server_name false (env.spawn server_name) env.now).1
          else st
        else if server.status = "running" then
          let hc := health_check_server st server_name env.alive
          if hc.2 = false then
            match dictGet hc.1.servers server_name with
            | none => hc.1
            | some s1 =>
                let st2 := { hc.1 with
                  servers := dictSet hc.1.servers server_name
                    ({ s1 with error_count := s1.error_count + 1 }) }
                if s1.error_count + 1 ≥ 3 then
                  let st3 := (restart_server st2 server_name
                    (env.stop_out server_name) (env.spawn server_name) env.now).1
                  match dictGet st3.servers server_name with
                  | none => st3
                  | some s3 =>
                      { st3 with
                        servers := dictSet st3.servers server_name
                          ({ s3 with error_count := 0 }) }
                else st2
          else
            match dictGet hc.1.servers server_name with
            | none => hc.1
            | some s1 =>
                { hc.1 with
                  servers := dictSet hc.1.servers server_name
                    ({ s1 with error_count := 0, last_health_check := some env.now }) }
        else st

/-- One iteration of the `while self.monitoring_enabled` loop of
`_monitor_servers` (the trailing `time.sleep(interval)` between iterations
is not part of any per-server behaviour and is not recorded). -/
def monitor_tick (st : ManagerState) (env : TickEnv) : ManagerState :=
  st.server_configs.foldl (monitor_one env) st

/-- A run of consecutive monitor iterations. -/
def monitor_run (st : ManagerState) (envs : List TickEnv) : ManagerState :=
  envs.foldl monitor_tick st

/-- Per-record body of `_load_server_states` (reconciliation at supervisor
startup): records of unconfigured servers are skipped.  For a record whose
PID is alive in the process table, the code sets a local status to
`"running"` and then attempts to re-register a handle with
`subprocess.Popen([])` — whose hard-coded empty argument list raises; the
exception is not among the inner `except (NoSuchProcess, AccessDenied)`
cases, so it propagates to the per-record `except Exception`, which logs and
skips the record: no runtime record is installed and no handle is
registered.  Only a record whose PID is absent or dead reaches the record
assignment, initialising the server `"stopped"` with no PID and
`restart_count` / `error_count` taken from the record. -/
def load_one_state (alive : Nat → Bool) (st : ManagerState)
    (record : ServerStateRecord) : ManagerState :=
  match dictGet st.server_configs record.name with
  | none => st
  | some config =>
      let isAlive :=
        match record.pid with
        | some p => alive p
        | none => false
      if isAlive then st
      else
        { st with
          servers := dictSet st.servers record.name
            ({ name := record.name,
               status := "stopped",
               pid := none,
               port := none,
               command := config.command,
               start_time := record.start_time,
               last_health_check := none,
               error_count := record.error_count,
               restart_count := record.restart_count }) }

/-- `_load_server_states`, folded over every persisted record found in the
runtime directory. -/
def load_server_states (st : ManagerState) (alive : Nat → Bool)
    (records : List ServerStateRecord) : ManagerState :=
  records.foldl (load_one_state alive) st

/-- `deploy_server`: register or replace a configuration without starting
anything (the on-disk `mcp.json` write and reload net to this). -/
def deploy_server (st : ManagerState) (server_name : String)
    (config : MCPServerConfig) : ManagerState :=
  { st with server_configs := dictSet st.server_configs server_name config }

/-- The manager's operations, for stating properties quantified over every
operation of a supervisor session. -/
inductive MgrOp where
  | startOp (server_name : String) (force : Bool) (out : SpawnOutcome) (now : Nat)
  | stopOp (server_name : String) (force : Bool) (out : StopOutcome)
  | restartOp (server_name : String) (sOut : StopOutcome) (spOut : SpawnOutcome) (now : Nat)
  | statusOp (alive : Nat → Bool)
  | deployOp (server_name : String) (config : MCPServerConfig)
  | tickOp (env : TickEnv)

/-- Apply one operation to the manager state. -/
def applyOp (st : ManagerState) : MgrOp → ManagerState
  | MgrOp.startOp n f o now => (start_server st n f o now).1
  | MgrOp.stopOp n f o => (stop_server st n f o).1
  | MgrOp.restartOp n s o now => (restart_server st n s o now).1
  | MgrOp.statusOp alive => update_server_metrics st alive
  | MgrOp.deployOp n c => deploy_server st n c
  | MgrOp.tickOp env => monitor_tick st env

/-- Recognise a spawn attempt for a given server in the action trace. -/
def isSpawnOf (server : String) : OsAction → Bool
  | OsAction.spawnProc m => m == server
  | _ => false

/-- Recognise the `restart_server` log line for a given server. -/
def isRestartLogOf (server : String) : OsAction → Bool
  | OsAction.restartLog m => m == server
  | _ => false

/-- `"alpha"`'s configuration in the crash-loop scenario of the spec:
`auto_start` and `auto_restart` on, `max_restarts = 1`, `restart_delay = 1`. -/
def crashLoopConfig : MCPServerConfig :=
  { name := "alpha", command := ["sleep", "9999"], max_restarts := 1,
    restart_delay := 1 }

/-- A stopped runtime record for `"alpha"` with all counters at zero. -/
def stoppedAlpha : MCPServerStatus :=
  { name := "alpha", status := "stopped", pid := none, port := none,
    command := ["sleep", "9999"], start_time := none }

/-- Initial manager state of the crash-loop scenario. -/
def crashLoopInit : ManagerState :=
  { server_configs := [("alpha", crashLoopConfig)],
    servers := [("alpha", stoppedAlpha)],
    processes := [], saved_states := [], actions := [] }

/-- Monitor iteration in which every spawn succeeds (PID `p`, alive after the
grace poll) and every queried process is alive. -/
def upTick (p t : Nat) : TickEnv :=
  { alive := fun _ => true, spawn := fun _ => SpawnOutcome.spawned p true,
    stop_out := fun _ => StopOutcome.graceful, now := t }

/-- Monitor iteration in which every queried process has vanished (the
managed process was killed externally between iterations). -/
def deadTick (t : Nat) : TickEnv :=
  { alive := fun _ => false, spawn := fun _ => SpawnOutcome.spawned 999 true,
    stop_out := fun _ => StopOutcome.graceful, now := t }

/-- Five monitor iterations of the crash-loop scenario: start, external kill
detected, restart, external kill detected, restart. -/
def crashLoopEnvs : List TickEnv :=
  [upTick 100 1, deadTick 2, upTick 101 3, deadTick 4, upTick 102 5]

/-- A runtime record for `"alpha"` that has already consumed three restarts. -/
def alphaWithThreeRestarts : MCPServerStatus :=
  { stoppedAlpha with restart_count := 3 }

/-- Manager state whose only server is stopped with `restart_count = 3` under
a config allowing `max_restarts = 5`. -/
def threeRestartsState : ManagerState :=
  { server_configs := [("alpha", { crashLoopConfig with max_restarts := 5 })],
    servers := [("alpha", alphaWithThreeRestarts)],
    processes := [], saved_states := [], actions := [] }

/-- `"alpha"`'s configuration with `auto_restart` disabled (and generous
`max_restarts`). -/
def noAutoRestartConfig : MCPServerConfig :=
  { name := "alpha", command := ["sleep", "9999"], auto_restart := false,
    max_restarts := 5, restart_delay := 1 }

/-- Manager state: `"alpha"` configured with `auto_start = true` but
`auto_restart = false`, currently stopped with `restart_count = 0`. -/
def noAutoRestartState : ManagerState :=
  { server_configs := [("alpha", noAutoRestartConfig)],
    servers := [("alpha", stoppedAlpha)],
    processes := [], saved_states := [], actions := [] }

/-- A running runtime record for `"alpha"` with PID 100. -/
def runningAlpha : MCPServerStatus :=
  { name := "alpha", status := "running", pid := some 100, port := none,
    command := ["sleep", "9999"], start_time := some 0 }

/-- Manager state: `"alpha"` is running (PID 100) under a config with
`auto_restart = false`. -/
def runningNoAutoRestartState : ManagerState :=
  { server_configs := [("alpha", noAutoRestartConfig)],
    servers := [("alpha", runningAlpha)],
    processes := [("alpha", 100)], saved_states := [], actions := [] }

/-- Config for `"alpha"` whose `restart_delay` is 5 seconds. -/
def delayFiveConfig : MCPServerConfig :=
  { name := "alpha", command := ["sleep", "9999"], max_restarts := 5,
    restart_delay := 5 }

/-- Manager state: `"alpha"` running with PID 77 and a live handle, under a
config with `restart_delay = 5`. -/
def runningAlpha77 : MCPServerStatus :=
  { runningAlpha with pid := some 77 }

def delayFiveState : ManagerState :=
  { server_configs := [("alpha", delayFiveConfig)],
    servers := [("alpha", runningAlpha77)],
    processes := [("alpha", 77)], saved_states := [], actions := [] }

/-- Manager state: `"alpha"` configured but with no runtime record and
nothing persisted yet. -/
def freshConfiguredState : ManagerState :=
  { server_configs := [("alpha", crashLoopConfig)],
    servers := [], processes := [], saved_states := [], actions := [] }

/-- A persisted record for `"alpha"`: PID 41, two restarts, one error. -/
def reconRecord : ServerStateRecord :=
  { name := "alpha", status := "running", pid := some 41, start_time := some 7,
    restart_count := 2, error_count := 1 }

/-- Action `a` is not a spawn attempt and not a restart log line for
`server`. -/
def avoidsServer (server : String) (a : OsAction) : Bool :=
  !(isRestartLogOf server a) && !(isSpawnOf server a)

/-- `st'` differs from `st` only away from server `m`: configurations are
unchanged, `m`'s runtime record is unchanged, and the trace only grew by
actions that neither spawn nor restart `m`. -/
def FramedAway (m : String) (st st' : ManagerState) : Prop :=
  st'.server_configs = st.server_configs
  ∧ dictGet st'.servers m = dictGet st.servers m
  ∧ ∃ d, st'.actions = st.actions ++ d ∧ d.all (avoidsServer m) = true

/-- Manager state: `"alpha"` running (PID 100) under the crash-loop config
(`auto_restart = true`). -/
def monitoredRunningState : ManagerState :=
  { server_configs := [("alpha", crashLoopConfig)],
    servers := [("alpha", runningAlpha)],
    processes := [("alpha", 100)], saved_states := [], actions := [] }

/-- A runtime record is consistent when `"running"` status implies a
recorded PID. -/
def statusOk (s : MCPServerStatus) : Bool :=
  s.status != "running" || s.pid.isSome

/-- Every runtime record of the manager satisfies `statusOk`: a server
marked `"running"` holds a non-null PID. -/
def running_has_pid (st : ManagerState) : Bool :=
  st.servers.all (fun kv => statusOk kv.2)

/-- C1: the config caps automatic restarts at `max_restarts = 1`, yet five
monitor iterations of the crash-loop scenario perform three automatic start
attempts for `"alpha"`, and its `restart_count` still reads 0: the auto-start
guard `restart_count < max_restarts` never binds because `start_server`
installs a fresh record with `restart_count = 0` on every successful spawn
and the auto-start path never increments the counter.  The server is never
parked — each dead-process detection is followed by another automatic
start. -/
theorem monitor_restart_attempts_exceed_max_restarts :
    (dictGet crashLoopInit.server_configs "alpha").map MCPServerConfig.max_restarts
      = some 1
    ∧ ((monitor_run crashLoopInit crashLoopEnvs).actions.countP (isSpawnOf "alpha")) = 3
    ∧ (dictGet (monitor_run crashLoopInit crashLoopEnvs).servers "alpha").map
        MCPServerStatus.restart_count = some 0
    ∧ (dictGet (monitor_run crashLoopInit crashLoopEnvs).servers "alpha").map
        MCPServerStatus.status = some "running" := by
  decide

/-- C8: a single monitor iteration auto-starts the stopped server and thereby
resets its `restart_count` from 3 to 0 — the monitor-driven `start_server`
replaces the runtime record with a fresh one whose `restart_count` is the
dataclass default 0, so the counter is not monotonically non-decreasing and
is silently reset by the monitor loop. -/
theorem monitor_tick_resets_restart_count :
    (dictGet threeRestartsState.servers "alpha").map MCPServerStatus.restart_count
      = some 3
    ∧ (dictGet (monitor_tick threeRestartsState (upTick 100 1)).servers "alpha").map
        MCPServerStatus.restart_count = some 0 := by
  decide

/-- C2 counterexample: `"alpha"` has `auto_start = true`, is not running, and
has `restart_count = 0 < max_restarts = 5`, yet — because its
`auto_restart` is `false` — a monitor iteration in which a spawn would have
succeeded changes nothing at all: the loop `continue`s past the server
before the auto-start branch, so it is not started. -/
theorem monitor_tick_skips_auto_restart_disabled :
    noAutoRestartConfig.auto_start = true
    ∧ noAutoRestartConfig.auto_restart = false
    ∧ (dictGet noAutoRestartState.servers "alpha").map MCPServerStatus.status
        = some "stopped"
    ∧ (dictGet noAutoRestartState.servers "alpha").map MCPServerStatus.restart_count
        = some 0
    ∧ noAutoRestartConfig.max_restarts = 5
    ∧ monitor_tick noAutoRestartState (upTick 100 1) = noAutoRestartState := by
  decide

/-- C3 counterexample: `"alpha"` is running and its process (PID 100) has
vanished from the process table, yet — because `auto_restart` is `false` —
the monitor iteration performs no health check at all: the state is
completely unchanged (status still `"running"`, `error_count` still 0,
`last_health_check` never stamped). -/
theorem monitor_tick_skips_health_check_when_auto_restart_disabled :
    (dictGet runningNoAutoRestartState.servers "alpha").map MCPServerStatus.status
      = some "running"
    ∧ (dictGet runningNoAutoRestartState.servers "alpha").map MCPServerStatus.pid
      = some (some 100)
    ∧ (deadTick 2).alive 100 = false
    ∧ noAutoRestartConfig.auto_restart = false
    ∧ monitor_tick runningNoAutoRestartState (deadTick 2) = runningNoAutoRestartState := by
  decide

/-- C4 counterexample: the server's configured `restart_delay` is 5 seconds,
but `restart_server` pauses `time.sleep(2)` — a fixed 2 seconds — between
stop and start: the trace of a successful restart contains a 2-second sleep
(besides the 1-second grace sleep inside `start_server`) and no 5-second
sleep. -/
theorem restart_ignores_configured_restart_delay :
    delayFiveConfig.restart_delay = 5
    ∧ (restart_server delayFiveState "alpha" StopOutcome.graceful
        (SpawnOutcome.spawned 88 true) 9).2 = true
    ∧ OsAction.sleep 2 ∈ (restart_server delayFiveState "alpha" StopOutcome.graceful
        (SpawnOutcome.spawned 88 true) 9).1.actions
    ∧ OsAction.sleep 5 ∉ (restart_server delayFiveState "alpha" StopOutcome.graceful
        (SpawnOutcome.spawned 88 true) 9).1.actions := by
  decide

/-- C6 counterexample: `start_server` spawns a process (PID 77) that exits
within the grace interval.  The server does end in status `"error"`, but the
Errored record is *not* persisted — the persistence log stays empty, because
`_save_server_state` is only called on the success path (and the Python
runtime record has no error-message field to retain either). -/
theorem start_failure_not_persisted :
    (start_server freshConfiguredState "alpha" false (SpawnOutcome.spawned 77 false) 3).2
      = false
    ∧ (dictGet (start_server freshConfiguredState "alpha" false
        (SpawnOutcome.spawned 77 false) 3).1.servers "alpha").map MCPServerStatus.status
      = some "error"
    ∧ (start_server freshConfiguredState "alpha" false
        (SpawnOutcome.spawned 77 false) 3).1.saved_states = [] := by
  decide

/-- C10 counterexample: `restart_server` on a running server with
`restart_count = 0` where the stop succeeds but the restarted process exits
within the grace interval: `restart_server` returns failure, yet the final
`restart_count` is 0, not 1 — the increment was wiped when `start_server`
installed a fresh runtime record, so the failed attempt consumed no restart
budget. -/
theorem failed_restart_loses_increment :
    (dictGet delayFiveState.servers "alpha").map MCPServerStatus.restart_count = some 0
    ∧ (restart_server delayFiveState "alpha" StopOutcome.graceful
        (SpawnOutcome.spawned 88 false) 9).2 = false
    ∧ (dictGet (restart_server delayFiveState "alpha" StopOutcome.graceful
        (SpawnOutcome.spawned 88 false) 9).1.servers "alpha").map
        MCPServerStatus.restart_count = some 0 := by
  decide

theorem dictGet_dictSet_self {α : Type} (l : List (String × α)) (k : String) (v : α) :
    dictGet (dictSet l k v) k = some v := by
  induction l with
  | nil => simp [dictGet, dictSet]
  | cons hd tl ih =>
      obtain ⟨k', w⟩ := hd
      by_cases h : k' = k
      · subst h; simp [dictGet, dictSet]
      · simp [dictGet, dictSet, h, ih]

theorem dictGet_dictSet_ne {α : Type} (l : List (String × α)) (k m : String) (v : α)
    (h : k ≠ m) : dictGet (dictSet l k v) m = dictGet l m := by
  induction l with
  | nil => simp [dictGet, dictSet, h]
  | cons hd tl ih =>
      obtain ⟨k', w⟩ := hd
      by_cases hk : k' = k
      · subst hk; simp [dictGet, dictSet, h]
      · simp [dictGet, dictSet, hk, ih]

theorem dictGet_map {α β : Type} (f : α → β) (l : List (String × α)) (k : String) :
    dictGet (l.map (fun kv => (kv.1, f kv.2))) k = (dictGet l k).map f := by
  induction l with
  | nil => simp [dictGet]
  | cons hd tl ih =>
      obtain ⟨k', w⟩ := hd
      by_cases h : k' = k
      · subst h; simp [dictGet]
      · simp [dictGet, h, ih]

/-- C5: reconciliation at supervisor startup never adopts a live-PID
record.  For a persisted record of the configured server `"alpha"` carrying
PID 41 with `restart_count = 2` and `error_count = 1`: when a live process
with PID 41 exists, `_load_server_states` installs no runtime record at all
and registers no process handle — the hard-coded `subprocess.Popen([])` of
the handle re-registration raises on its empty argument list and the
per-record exception handler skips the record — so the server is not adopted
as Running and is not placed under monitoring.  When PID 41 is dead, the
server is initialised `"stopped"` with no PID and the record's
`restart_count` / `error_count` preserved, as the claim states for that
half. -/
theorem reconcile_never_adopts_live_pid :
    (dictGet freshConfiguredState.server_configs "alpha" = some crashLoopConfig
      ∧ reconRecord.pid = some 41)
    ∧ (dictGet (load_server_states freshConfiguredState (fun _ => true)
          [reconRecord]).servers "alpha" = none
      ∧ dictGet (load_server_states freshConfiguredState (fun _ => true)
          [reconRecord]).processes "alpha" = none)
    ∧ ((dictGet (load_server_states freshConfiguredState (fun _ => false)
          [reconRecord]).servers "alpha").map MCPServerStatus.status
          = some "stopped"
      ∧ (dictGet (load_server_states freshConfiguredState (fun _ => false)
          [reconRecord]).servers "alpha").map MCPServerStatus.pid = some none
      ∧ (dictGet (load_server_states freshConfiguredState (fun _ => false)
          [reconRecord]).servers "alpha").map MCPServerStatus.restart_count
          = some reconRecord.restart_count
      ∧ (dictGet (load_server_states freshConfiguredState (fun _ => false)
          [reconRecord]).servers "alpha").map MCPServerStatus.error_count
          = some reconRecord.error_count) := by
  decide

theorem finishStop_spec (st : ManagerState) (server_name : String) (s : MCPServerStatus)
    (hs : dictGet st.servers server_name = some s) :
    finishStop st server_name
      = ({ st with
            servers := dictSet st.servers server_name
              ({ s with status := "stopped", pid := none }),
            saved_states := st.saved_states
              ++ [⟨s.name, "stopped", none, s.start_time, s.restart_count,
                    s.error_count⟩] },
         true) := by
  simp [finishStop, hs, saveServerState, dictGet_dictSet_self]

/-- C7: `stop_server` on a `"running"` server, on every non-raising path
(forced, graceful exit, or timeout-escalation): it returns success, the
server ends `"stopped"` with its PID cleared, the stopped record is
persisted, and — when a process handle is registered — the process group is
signalled SIGTERM then waited on for up to 10 seconds with SIGKILL on
timeout, or SIGKILL immediately when `force` is set. -/
theorem stop_running_server_stops_and_persists
    (st : ManagerState) (server_name : String) (s : MCPServerStatus)
    (force : Bool) (out : StopOutcome)
    (hs : dictGet st.servers server_name = some s)
    (hrun : s.status = "running")
    (hout : out ≠ StopOutcome.exnFail) :
    ((stop_server st server_name force out).2 = true)
    ∧ (∃ s', dictGet (stop_server st server_name force out).1.servers server_name = some s'
        ∧ s'.status = "stopped" ∧ s'.pid = none)
    ∧ ((stop_server st server_name force out).1.saved_states
        = st.saved_states
          ++ [⟨s.name, "stopped", none, s.start_time, s.restart_count, s.error_count⟩])
    ∧ (∀ p, dictGet st.processes server_name = some p →
        (force = true →
          (stop_server st server_name force out).1.actions
            = st.actions ++ [OsAction.signalGroup p "SIGKILL"])
        ∧ (force = false → out = StopOutcome.graceful →
          (stop_server st server_name force out).1.actions
            = st.actions ++ [OsAction.signalGroup p "SIGTERM", OsAction.waitProc p 10])
        ∧ (force = false → out = StopOutcome.timeoutKill →
          (stop_server st server_name force out).1.actions
            = st.actions ++ [OsAction.signalGroup p "SIGTERM", OsAction.waitProc p 10,
                OsAction.signalGroup p "SIGKILL"])) := by
  cases hp : dictGet st.processes server_name with
  | none =>
      have h1 : stop_server st server_name force out
          = ({ st with
                servers := dictSet st.servers server_name
                  ({ s with status := "stopped", pid := none }),
                saved_states := st.saved_states
                  ++ [⟨s.name, "stopped", none, s.start_time, s.restart_count,
                        s.error_count⟩] },
             true) := by
        simp [stop_server, hs, hrun, hp, finishStop, saveServerState,
          dictGet_dictSet_self]
      rw [h1]
      refine ⟨rfl, ⟨_, dictGet_dictSet_self _ _ _, rfl, rfl⟩, rfl, ?_⟩
      intro p hp'
      exact Option.noConfusion hp'
  | some q =>
      cases out with
      | exnFail => exact absurd rfl hout
      | graceful =>
          cases force with
          | true =>
              have h1 : stop_server st server_name true StopOutcome.graceful
                  = ({ st with
                        servers := dictSet st.servers server_name
                          ({ s with status := "stopped", pid := none }),
                        processes := dictDel st.processes server_name,
                        saved_states := st.saved_states
                          ++ [⟨s.name, "stopped", none, s.start_time, s.restart_count,
                                s.error_count⟩],
                        actions := st.actions ++ [OsAction.signalGroup q "SIGKILL"] },
                     true) := by
                simp [stop_server, hs, hrun, hp, pushAction, finishStop,
                  saveServerState, dictGet_dictSet_self]
              rw [h1]
              refine ⟨rfl, ⟨_, dictGet_dictSet_self _ _ _, rfl, rfl⟩, rfl, ?_⟩
              intro p hp'
              injection hp' with hqp
              subst hqp
              exact ⟨fun _ => rfl, fun hf => Bool.noConfusion hf,
                     fun hf => Bool.noConfusion hf⟩
          | false =>
              have h1 : stop_server st server_name false StopOutcome.graceful
                  = ({ st with
                        servers := dictSet st.servers server_name
                          ({ s with status := "stopped", pid := none }),
                        processes := dictDel st.processes server_name,
                        saved_states := st.saved_states
                          ++ [⟨s.name, "stopped", none, s.start_time, s.restart_count,
                                s.error_count⟩],
                        actions := st.actions
                          ++ [OsAction.signalGroup q "SIGTERM", OsAction.waitProc q 10] },
                     true) := by
                simp [stop_server, hs, hrun, hp, pushAction, finishStop,
                  saveServerState, dictGet_dictSet_self]
              rw [h1]
              refine ⟨rfl, ⟨_, dictGet_dictSet_self _ _ _, rfl, rfl⟩, rfl, ?_⟩
              intro p hp'
              injection hp' with hqp
              subst hqp
              exact ⟨fun hf => Bool.noConfusion hf, fun _ _ => rfl,
                     fun _ hg => StopOutcome.noConfusion hg⟩
      | timeoutKill =>
          cases force with
          | true =>
              have h1 : stop_server st server_name true StopOutcome.timeoutKill
                  = ({ st with
                        servers := dictSet st.servers server_name
                          ({ s with status := "stopped", pid := none }),
                        processes := dictDel st.processes server_name,
                        saved_states := st.saved_states
                          ++ [⟨s.name, "stopped", none, s.start_time, s.restart_count,
                                s.error_count⟩],
                        actions := st.actions ++ [OsAction.signalGroup q "SIGKILL"] },
                     true) := by
                simp [stop_server, hs, hrun, hp, pushAction, finishStop,
                  saveServerState, dictGet_dictSet_self]
              rw [h1]
              refine ⟨rfl, ⟨_, dictGet_dictSet_self _ _ _, rfl, rfl⟩, rfl, ?_⟩
              intro p hp'
              injection hp' with hqp
              subst hqp
              exact ⟨fun _ => rfl, fun hf => Bool.noConfusion hf,
                     fun hf => Bool.noConfusion hf⟩
          | false =>
              have h1 : stop_server st server_name false StopOutcome.timeoutKill
                  = ({ st with
                        servers := dictSet st.servers server_name
                          ({ s with status := "stopped", pid := none }),
                        processes := dictDel st.processes server_name,
                        saved_states := st.saved_states
                          ++ [⟨s.name, "stopped", none, s.start_time, s.restart_count,
                                s.error_count⟩],
                        actions := st.actions
                          ++ [OsAction.signalGroup q "SIGTERM", OsAction.waitProc q 10,
                              OsAction.signalGroup q "SIGKILL"] },
                     true) := by
                simp [stop_server, hs, hrun, hp, pushAction, finishStop,
                  saveServerState, dictGet_dictSet_self]
              rw [h1]
              refine ⟨rfl, ⟨_, dictGet_dictSet_self _ _ _, rfl, rfl⟩, rfl, ?_⟩
              intro p hp'
              injection hp' with hqp
              subst hqp
              exact ⟨fun hf => Bool.noConfusion hf,
                     fun _ hg => StopOutcome.noConfusion hg, fun _ _ => rfl⟩

/-- Witness for `stop_running_server_stops_and_persists`: graceful stop of
`"alpha"` (running, PID 77, handle registered) in `delayFiveState`. -/
theorem stop_running_server_stops_and_persists_witness :
    (dictGet delayFiveState.servers "alpha" = some runningAlpha77
      ∧ runningAlpha77.status = "running"
      ∧ StopOutcome.graceful ≠ StopOutcome.exnFail)
    ∧ (((stop_server delayFiveState "alpha" false StopOutcome.graceful).2 = true)
      ∧ (∃ s', dictGet (stop_server delayFiveState "alpha" false
            StopOutcome.graceful).1.servers "alpha" = some s'
          ∧ s'.status = "stopped" ∧ s'.pid = none)
      ∧ ((stop_server delayFiveState "alpha" false StopOutcome.graceful).1.saved_states
          = delayFiveState.saved_states
            ++ [⟨runningAlpha77.name, "stopped", none, runningAlpha77.start_time,
                  runningAlpha77.restart_count, runningAlpha77.error_count⟩])
      ∧ (∀ p, dictGet delayFiveState.processes "alpha" = some p →
          (false = true →
            (stop_server delayFiveState "alpha" false StopOutcome.graceful).1.actions
              = delayFiveState.actions ++ [OsAction.signalGroup p "SIGKILL"])
          ∧ (false = false → StopOutcome.graceful = StopOutcome.graceful →
            (stop_server delayFiveState "alpha" false StopOutcome.graceful).1.actions
              = delayFiveState.actions
                ++ [OsAction.signalGroup p "SIGTERM", OsAction.waitProc p 10])
          ∧ (false = false → StopOutcome.graceful = StopOutcome.timeoutKill →
            (stop_server delayFiveState "alpha" false StopOutcome.graceful).1.actions
              = delayFiveState.actions
                ++ [OsAction.signalGroup p "SIGTERM", OsAction.waitProc p 10,
                    OsAction.signalGroup p "SIGKILL"]))) :=
  ⟨⟨by decide, by decide, by decide⟩,
   stop_running_server_stops_and_persists delayFiveState "alpha" runningAlpha77 false
     StopOutcome.graceful (by decide) (by decide) (by decide)⟩

theorem dictSet_dictSet {α : Type} (l : List (String × α)) (k : String) (v w : α) :
    dictSet (dictSet l k v) k w = dictSet l k w := by
  induction l with
  | nil => simp [dictSet]
  | cons hd tl ih =>
      obtain ⟨k', u⟩ := hd
      by_cases h : k' = k
      · subst h; simp [dictSet]
      · simp [dictSet, h, ih]

/-- C6 (amended): outcomes of `start_server` on a configured server that is
not currently `"running"`.  A spawn surviving the grace interval yields
success: status `"running"`, PID recorded, record persisted.  A spawn that
exits within the grace interval yields failure with status `"error"` — but
nothing is persisted.  A raising spawn yields failure with nothing
persisted, and marks the record `"error"` only when one already existed. -/
theorem start_outcome_running_or_error
    (st : ManagerState) (server_name : String) (cfg : MCPServerConfig) (now : Nat)
    (hcfg : dictGet st.server_configs server_name = some cfg)
    (hnr : alreadyRunning st server_name = false) :
    (∀ p, (start_server st server_name false (SpawnOutcome.spawned p true) now).2 = true
      ∧ (∃ s', dictGet (start_server st server_name false
            (SpawnOutcome.spawned p true) now).1.servers server_name = some s'
          ∧ s'.status = "running" ∧ s'.pid = some p)
      ∧ (start_server st server_name false (SpawnOutcome.spawned p true) now).1.saved_states
          = st.saved_states ++ [⟨server_name, "running", some p, some now, 0, 0⟩])
    ∧ (∀ p, (start_server st server_name false (SpawnOutcome.spawned p false) now).2 = false
      ∧ (∃ s', dictGet (start_server st server_name false
            (SpawnOutcome.spawned p false) now).1.servers server_name = some s'
          ∧ s'.status = "error" ∧ s'.pid = some p)
      ∧ (start_server st server_name false (SpawnOutcome.spawned p false) now).1.saved_states
          = st.saved_states)
    ∧ ((start_server st server_name false SpawnOutcome.spawnFail now).2 = false
      ∧ (start_server st server_name false SpawnOutcome.spawnFail now).1.saved_states
          = st.saved_states
      ∧ (∀ s, dictGet st.servers server_name = some s →
          ∃ s', dictGet (start_server st server_name false
              SpawnOutcome.spawnFail now).1.servers server_name = some s'
            ∧ s'.status = "error")
      ∧ (dictGet st.servers server_name = none →
          dictGet (start_server st server_name false
            SpawnOutcome.spawnFail now).1.servers server_name = none)) := by
  refine ⟨fun p => ?_, fun p => ?_, ?_, ?_, ?_⟩
  · have h1 : start_server st server_name false (SpawnOutcome.spawned p true) now
        = ({ st with
              servers := dictSet st.servers server_name
                ({ name := server_name, status := "running", pid := some p,
                   port := none, command := cfg.command ++ cfg.args,
                   start_time := some now }),
              processes := dictSet st.processes server_name p,
              saved_states := st.saved_states
                ++ [⟨server_name, "running", some p, some now, 0, 0⟩],
              actions := st.actions
                ++ [OsAction.spawnProc server_name, OsAction.sleep 1] },
           true) := by
      simp [start_server, hcfg, hnr, startBody, pushAction, saveServerState,
        dictGet_dictSet_self]
    rw [h1]
    exact ⟨rfl, ⟨_, dictGet_dictSet_self _ _ _, rfl, rfl⟩, rfl⟩
  · have h1 : start_server st server_name false (SpawnOutcome.spawned p false) now
        = ({ st with
              servers := dictSet st.servers server_name
                ({ name := server_name, status := "error", pid := some p,
                   port := none, command := cfg.command ++ cfg.args,
                   start_time := some now }),
              processes := dictSet st.processes server_name p,
              actions := st.actions
                ++ [OsAction.spawnProc server_name, OsAction.sleep 1] },
           false) := by
      simp [start_server, hcfg, hnr, startBody, pushAction, saveServerState,
        dictGet_dictSet_self, dictSet_dictSet]
    rw [h1]
    exact ⟨rfl, ⟨_, dictGet_dictSet_self _ _ _, rfl, rfl⟩, rfl⟩
  · cases hsv : dictGet st.servers server_name with
    | none => simp [start_server, hcfg, hnr, startBody, pushAction, hsv]
    | some s => simp [start_server, hcfg, hnr, startBody, pushAction, hsv]
  · cases hsv : dictGet st.servers server_name with
    | none => simp [start_server, hcfg, hnr, startBody, pushAction, hsv]
    | some s => simp [start_server, hcfg, hnr, startBody, pushAction, hsv]
  · constructor
    · intro s hsv
      have h1 : start_server st server_name false SpawnOutcome.spawnFail now
          = ({ st with
                servers := dictSet st.servers server_name ({ s with status := "error" }),
                actions := st.actions ++ [OsAction.spawnProc server_name] },
             false) := by
        simp [start_server, hcfg, hnr, startBody, pushAction, hsv]
      rw [h1]
      exact ⟨_, dictGet_dictSet_self _ _ _, rfl⟩
    · intro hsv
      have h1 : start_server st server_name false SpawnOutcome.spawnFail now
          = ({ st with actions := st.actions ++ [OsAction.spawnProc server_name] },
             false) := by
        simp [start_server, hcfg, hnr, startBody, pushAction, hsv]
      rw [h1]
      exact hsv

/-- Witness for `start_outcome_running_or_error` on the configured-but-empty
state. -/
theorem start_outcome_running_or_error_witness :
    (dictGet freshConfiguredState.server_configs "alpha" = some crashLoopConfig
      ∧ alreadyRunning freshConfiguredState "alpha" = false)
    ∧ ((∀ p, (start_server freshConfiguredState "alpha" false
            (SpawnOutcome.spawned p true) 3).2 = true
        ∧ (∃ s', dictGet (start_server freshConfiguredState "alpha" false
              (SpawnOutcome.spawned p true) 3).1.servers "alpha" = some s'
            ∧ s'.status = "running" ∧ s'.pid = some p)
        ∧ (start_server freshConfiguredState "alpha" false
              (SpawnOutcome.spawned p true) 3).1.saved_states
            = freshConfiguredState.saved_states
              ++ [⟨"alpha", "running", some p, some 3, 0, 0⟩])
      ∧ (∀ p, (start_server freshConfiguredState "alpha" false
            (SpawnOutcome.spawned p false) 3).2 = false
        ∧ (∃ s', dictGet (start_server freshConfiguredState "alpha" false
              (SpawnOutcome.spawned p false) 3).1.servers "alpha" = some s'
            ∧ s'.status = "error" ∧ s'.pid = some p)
        ∧ (start_server freshConfiguredState "alpha" false
              (SpawnOutcome.spawned p false) 3).1.saved_states
            = freshConfiguredState.saved_states)
      ∧ ((start_server freshConfiguredState "alpha" false
            SpawnOutcome.spawnFail 3).2 = false
        ∧ (start_server freshConfiguredState "alpha" false
              SpawnOutcome.spawnFail 3).1.saved_states
            = freshConfiguredState.saved_states
        ∧ (∀ s, dictGet freshConfiguredState.servers "alpha" = some s →
            ∃ s', dictGet (start_server freshConfiguredState "alpha" false
                SpawnOutcome.spawnFail 3).1.servers "alpha" = some s'
              ∧ s'.status = "error")
        ∧ (dictGet freshConfiguredState.servers "alpha" = none →
            dictGet (start_server freshConfiguredState "alpha" false
              SpawnOutcome.spawnFail 3).1.servers "alpha" = none))) :=
  ⟨⟨by decide, by decide⟩,
   start_outcome_running_or_error freshConfiguredState "alpha" crashLoopConfig 3
     (by decide) (by decide)⟩

/-- C10 (amended): `restart_server` on a running server with a registered
handle increments `restart_count` before the stop, and the increment
persists when the stop raises (returning failure) or when the re-spawn
itself raises (status `"error"`, failure).  But when the re-spawn succeeds
and the process exits within the grace interval, `start_server` has already
replaced the runtime record, so `restart_count` ends at 0 even though
`restart_server` returns failure. -/
theorem restart_increment_persistence
    (st : ManagerState) (server_name : String) (s : MCPServerStatus)
    (cfg : MCPServerConfig) (q : Nat) (now : Nat)
    (hcfg : dictGet st.server_configs server_name = some cfg)
    (hs : dictGet st.servers server_name = some s)
    (hrun : s.status = "running")
    (hproc : dictGet st.processes server_name = some q) :
    (∀ spOut, (restart_server st server_name StopOutcome.exnFail spOut now).2 = false
      ∧ (dictGet (restart_server st server_name StopOutcome.exnFail spOut now).1.servers
          server_name).map MCPServerStatus.restart_count = some (s.restart_count + 1)
      ∧ (dictGet (restart_server st server_name StopOutcome.exnFail spOut now).1.servers
          server_name).map MCPServerStatus.status = some "running")
    ∧ ((restart_server st server_name StopOutcome.graceful SpawnOutcome.spawnFail now).2
        = false
      ∧ (dictGet (restart_server st server_name StopOutcome.graceful
          SpawnOutcome.spawnFail now).1.servers server_name).map
          MCPServerStatus.restart_count = some (s.restart_count + 1)
      ∧ (dictGet (restart_server st server_name StopOutcome.graceful
          SpawnOutcome.spawnFail now).1.servers server_name).map
          MCPServerStatus.status = some "error")
    ∧ (∀ p, (restart_server st server_name StopOutcome.graceful
          (SpawnOutcome.spawned p false) now).2 = false
      ∧ (dictGet (restart_server st server_name StopOutcome.graceful
          (SpawnOutcome.spawned p false) now).1.servers server_name).map
          MCPServerStatus.restart_count = some 0) := by
  refine ⟨fun spOut => ?_, ?_, fun p => ?_⟩
  · have h1 : restart_server st server_name StopOutcome.exnFail spOut now
        = ({ st with
              servers := dictSet st.servers server_name
                ({ s with restart_count := s.restart_count + 1 }),
              actions := st.actions ++ [OsAction.restartLog server_name] },
           false) := by
      simp [restart_server, stop_server, pushAction, hs, hrun, hproc,
        dictGet_dictSet_self]
    rw [h1]
    refine ⟨rfl, ?_, ?_⟩ <;> simp [dictGet_dictSet_self, hrun]
  · have h1 : restart_server st server_name StopOutcome.graceful
        SpawnOutcome.spawnFail now
        = ({ st with
              servers := dictSet st.servers server_name
                ({ s with
                    restart_count := s.restart_count + 1,
                    status := "error", pid := none }),
              processes := dictDel st.processes server_name,
              saved_states := st.saved_states
                ++ [⟨s.name, "stopped", none, s.start_time, s.restart_count + 1,
                      s.error_count⟩],
              actions := st.actions
                ++ [OsAction.restartLog server_name,
                    OsAction.signalGroup q "SIGTERM", OsAction.waitProc q 10,
                    OsAction.sleep 2, OsAction.spawnProc server_name] },
           false) := by
      simp [restart_server, stop_server, start_server, startBody, alreadyRunning,
        finishStop, saveServerState, pushAction, hcfg, hs, hrun, hproc,
        dictGet_dictSet_self, dictSet_dictSet]
    rw [h1]
    refine ⟨rfl, ?_, ?_⟩ <;> simp [dictGet_dictSet_self]
  · have h1 : restart_server st server_name StopOutcome.graceful
        (SpawnOutcome.spawned p false) now
        = ({ st with
              servers := dictSet st.servers server_name
                ({ name := server_name, status := "error", pid := some p,
                   port := none, command := cfg.command ++ cfg.args,
                   start_time := some now }),
              processes := dictSet (dictDel st.processes server_name) server_name p,
              saved_states := st.saved_states
                ++ [⟨s.name, "stopped", none, s.start_time, s.restart_count + 1,
                      s.error_count⟩],
              actions := st.actions
                ++ [OsAction.restartLog server_name,
                    OsAction.signalGroup q "SIGTERM", OsAction.waitProc q 10,
                    OsAction.sleep 2, OsAction.spawnProc server_name,
                    OsAction.sleep 1] },
           false) := by
      simp [restart_server, stop_server, start_server, startBody, alreadyRunning,
        finishStop, saveServerState, pushAction, hcfg, hs, hrun, hproc,
        dictGet_dictSet_self, dictSet_dictSet]
    rw [h1]
    refine ⟨rfl, ?_⟩
    simp [dictGet_dictSet_self]

/-- Witness for `restart_increment_persistence` on `delayFiveState`
(`"alpha"` running, PID 77, handle 77). -/
theorem restart_increment_persistence_witness :
    (dictGet delayFiveState.server_configs "alpha" = some delayFiveConfig
      ∧ dictGet delayFiveState.servers "alpha" = some runningAlpha77
      ∧ runningAlpha77.status = "running"
      ∧ dictGet delayFiveState.processes "alpha" = some 77)
    ∧ ((∀ spOut, (restart_server delayFiveState "alpha" StopOutcome.exnFail spOut 9).2
          = false
        ∧ (dictGet (restart_server delayFiveState "alpha" StopOutcome.exnFail
            spOut 9).1.servers "alpha").map MCPServerStatus.restart_count
            = some (runningAlpha77.restart_count + 1)
        ∧ (dictGet (restart_server delayFiveState "alpha" StopOutcome.exnFail
            spOut 9).1.servers "alpha").map MCPServerStatus.status = some "running")
      ∧ ((restart_server delayFiveState "alpha" StopOutcome.graceful
            SpawnOutcome.spawnFail 9).2 = false
        ∧ (dictGet (restart_server delayFiveState "alpha" StopOutcome.graceful
            SpawnOutcome.spawnFail 9).1.servers "alpha").map
            MCPServerStatus.restart_count = some (runningAlpha77.restart_count + 1)
        ∧ (dictGet (restart_server delayFiveState "alpha" StopOutcome.graceful
            SpawnOutcome.spawnFail 9).1.servers "alpha").map
            MCPServerStatus.status = some "error")
      ∧ (∀ p, (restart_server delayFiveState "alpha" StopOutcome.graceful
            (SpawnOutcome.spawned p false) 9).2 = false
        ∧ (dictGet (restart_server delayFiveState "alpha" StopOutcome.graceful
            (SpawnOutcome.spawned p false) 9).1.servers "alpha").map
            MCPServerStatus.restart_count = some 0)) :=
  ⟨⟨by decide, by decide, by decide, by decide⟩,
   restart_increment_persistence delayFiveState "alpha" runningAlpha77
     delayFiveConfig 77 9 (by decide) (by decide) (by decide) (by decide)⟩

/-- C4 (amended): `restart_server` first increments `restart_count` (for a
server with a runtime record), then performs the stop, then pauses a fixed
2 seconds — `time.sleep(2)`, not the configured `restart_delay` — then
performs the start.  The persisted record written by the stop step already
carries the incremented `restart_count`, evidencing the increment-then-stop
order, and the 2-second sleep sits between the stop signalling and the spawn
in the trace. -/
theorem restart_sequence_increment_stop_pause_start
    (st : ManagerState) (server_name : String) (s : MCPServerStatus)
    (cfg : MCPServerConfig) (q : Nat) (now : Nat) (spOut : SpawnOutcome)
    (hcfg : dictGet st.server_configs server_name = some cfg)
    (hs : dictGet st.servers server_name = some s)
    (hrun : s.status = "running")
    (hproc : dictGet st.processes server_name = some q) :
    (∃ suffix, (restart_server st server_name StopOutcome.graceful spOut now).1.actions
        = st.actions
          ++ [OsAction.restartLog server_name, OsAction.signalGroup q "SIGTERM",
              OsAction.waitProc q 10, OsAction.sleep 2,
              OsAction.spawnProc server_name] ++ suffix)
    ∧ (∃ rest, (restart_server st server_name StopOutcome.graceful spOut now).1.saved_states
        = st.saved_states
          ++ [⟨s.name, "stopped", none, s.start_time, s.restart_count + 1,
                s.error_count⟩] ++ rest) := by
  cases spOut with
  | spawnFail =>
      refine ⟨⟨[], ?_⟩, ⟨[], ?_⟩⟩ <;>
        simp [restart_server, stop_server, start_server, startBody, alreadyRunning,
          finishStop, saveServerState, pushAction, hcfg, hs, hrun, hproc,
          dictGet_dictSet_self, dictSet_dictSet]
  | spawned p alive =>
      cases alive with
      | true =>
          refine ⟨⟨[OsAction.sleep 1], ?_⟩,
                  ⟨[⟨server_name, "running", some p, some now, 0, 0⟩], ?_⟩⟩ <;>
            simp [restart_server, stop_server, start_server, startBody, alreadyRunning,
              finishStop, saveServerState, pushAction, hcfg, hs, hrun, hproc,
              dictGet_dictSet_self, dictSet_dictSet]
      | false =>
          refine ⟨⟨[OsAction.sleep 1], ?_⟩, ⟨[], ?_⟩⟩ <;>
            simp [restart_server, stop_server, start_server, startBody, alreadyRunning,
              finishStop, saveServerState, pushAction, hcfg, hs, hrun, hproc,
              dictGet_dictSet_self, dictSet_dictSet]

/-- Witness for `restart_sequence_increment_stop_pause_start` on
`delayFiveState` with a successful re-spawn. -/
theorem restart_sequence_increment_stop_pause_start_witness :
    (dictGet delayFiveState.server_configs "alpha" = some delayFiveConfig
      ∧ dictGet delayFiveState.servers "alpha" = some runningAlpha77
      ∧ runningAlpha77.status = "running"
      ∧ dictGet delayFiveState.processes "alpha" = some 77)
    ∧ ((∃ suffix, (restart_server delayFiveState "alpha" StopOutcome.graceful
          (SpawnOutcome.spawned 88 true) 9).1.actions
        = delayFiveState.actions
          ++ [OsAction.restartLog "alpha", OsAction.signalGroup 77 "SIGTERM",
              OsAction.waitProc 77 10, OsAction.sleep 2,
              OsAction.spawnProc "alpha"] ++ suffix)
      ∧ (∃ rest, (restart_server delayFiveState "alpha" StopOutcome.graceful
          (SpawnOutcome.spawned 88 true) 9).1.saved_states
        = delayFiveState.saved_states
          ++ [⟨runningAlpha77.name, "stopped", none, runningAlpha77.start_time,
                runningAlpha77.restart_count + 1, runningAlpha77.error_count⟩]
          ++ rest)) :=
  ⟨⟨by decide, by decide, by decide, by decide⟩,
   restart_sequence_increment_stop_pause_start delayFiveState "alpha" runningAlpha77
     delayFiveConfig 77 9 (SpawnOutcome.spawned 88 true)
     (by decide) (by decide) (by decide) (by decide)⟩

theorem framedAway_refl (m : String) (st : ManagerState) : FramedAway m st st :=
  ⟨rfl, rfl, [], by simp, rfl⟩

theorem framedAway_trans {m : String} {st1 st2 st3 : ManagerState}
    (h1 : FramedAway m st1 st2) (h2 : FramedAway m st2 st3) :
    FramedAway m st1 st3 := by
  obtain ⟨hc1, hs1, d1, ha1, hall1⟩ := h1
  obtain ⟨hc2, hs2, d2, ha2, hall2⟩ := h2
  exact ⟨hc2.trans hc1, hs2.trans hs1, d1 ++ d2,
    by rw [ha2, ha1, List.append_assoc],
    by simp [List.all_append, hall1, hall2]⟩

theorem framedAway_push {m : String} (st : ManagerState) (a : OsAction)
    (ha : avoidsServer m a = true) : FramedAway m st (pushAction st a) :=
  ⟨rfl, rfl, [a], rfl, by simp [ha]⟩

theorem framedAway_set_server {n m : String} (st : ManagerState)
    (v : MCPServerStatus) (hnm : n ≠ m) :
    FramedAway m st { st with servers := dictSet st.servers n v } :=
  ⟨rfl, dictGet_dictSet_ne _ _ _ _ hnm, [], by simp, rfl⟩

theorem framedAway_save {m : String} (st : ManagerState) (k : String) :
    FramedAway m st (saveServerState st k) := by
  unfold saveServerState
  cases dictGet st.servers k
  · exact framedAway_refl m st
  · exact ⟨rfl, rfl, [], by simp, rfl⟩

theorem startBody_framedAway (st : ManagerState) (n : String) (cfg : MCPServerConfig)
    (out : SpawnOutcome) (now : Nat) (m : String) (hnm : n ≠ m) :
    FramedAway m st (startBody st n cfg out now).1 := by
  cases out with
  | spawnFail =>
      cases hsv : dictGet st.servers n with
      | none =>
          refine ⟨?_, ?_, [OsAction.spawnProc n], ?_, ?_⟩
          · simp [startBody, pushAction, hsv]
          · simp [startBody, pushAction, hsv]
          · simp [startBody, pushAction, hsv]
          · simp [avoidsServer, isSpawnOf, isRestartLogOf, hnm]
      | some s =>
          refine ⟨?_, ?_, [OsAction.spawnProc n], ?_, ?_⟩
          · simp [startBody, pushAction, hsv]
          · simp [startBody, pushAction, hsv, dictGet_dictSet_ne _ _ _ _ hnm]
          · simp [startBody, pushAction, hsv]
          · simp [avoidsServer, isSpawnOf, isRestartLogOf, hnm]
  | spawned p alive =>
      cases alive with
      | true =>
          refine ⟨?_, ?_, [OsAction.spawnProc n, OsAction.sleep 1], ?_, ?_⟩
          · simp [startBody, pushAction, saveServerState, dictGet_dictSet_self]
          · simp [startBody, pushAction, saveServerState, dictGet_dictSet_self,
              dictGet_dictSet_ne _ _ _ _ hnm]
          · simp [startBody, pushAction, saveServerState, dictGet_dictSet_self]
          · simp [avoidsServer, isSpawnOf, isRestartLogOf, hnm]
      | false =>
          refine ⟨?_, ?_, [OsAction.spawnProc n, OsAction.sleep 1], ?_, ?_⟩
          · simp [startBody, pushAction, dictGet_dictSet_self, dictSet_dictSet]
          · simp [startBody, pushAction, dictGet_dictSet_self, dictSet_dictSet,
              dictGet_dictSet_ne _ _ _ _ hnm]
          · simp [startBody, pushAction, dictGet_dictSet_self, dictSet_dictSet]
          · simp [avoidsServer, isSpawnOf, isRestartLogOf, hnm]

theorem start_server_framedAway (st : ManagerState) (n : String) (force : Bool)
    (out : SpawnOutcome) (now : Nat) (m : String) (hnm : n ≠ m) :
    FramedAway m st (start_server st n force out now).1 := by
  cases hc : dictGet st.server_configs n with
  | none =>
      have h1 : (start_server st n force out now).1 = st := by simp [start_server, hc]
      rw [h1]; exact framedAway_refl m st
  | some cfg =>
      by_cases hr : alreadyRunning st n = true ∧ force = false
      · have h1 : (start_server st n force out now).1 = st := by
          simp [start_server, hc, hr]
        rw [h1]; exact framedAway_refl m st
      · have h1 : (start_server st n force out now).1 = (startBody st n cfg out now).1 := by
          simp [start_server, hc, hr]
        rw [h1]; exact startBody_framedAway st n cfg out now m hnm

theorem finishStop_framedAway (st : ManagerState) (n m : String) (hnm : n ≠ m) :
    FramedAway m st (finishStop st n).1 := by
  cases hsv : dictGet st.servers n with
  | none =>
      have h1 : (finishStop st n).1 = st := by simp [finishStop, hsv]
      rw [h1]; exact framedAway_refl m st
  | some s =>
      refine ⟨?_, ?_, [], ?_, ?_⟩
      · simp [finishStop, hsv, saveServerState, dictGet_dictSet_self]
      · simp [finishStop, hsv, saveServerState, dictGet_dictSet_self,
          dictGet_dictSet_ne _ _ _ _ hnm]
      · simp [finishStop, hsv, saveServerState, dictGet_dictSet_self]
      · rfl

theorem stop_server_framedAway (st : ManagerState) (n : String) (force : Bool)
    (out : StopOutcome) (m : String) (hnm : n ≠ m) :
    FramedAway m st (stop_server st n force out).1 := by
  cases hsv : dictGet st.servers n with
  | none =>
      have h1 : (stop_server st n force out).1 = st := by simp [stop_server, hsv]
      rw [h1]; exact framedAway_refl m st
  | some s =>
      by_cases hrun : s.status = "running"
      · cases hp : dictGet st.processes n with
        | none =>
            have h1 : (stop_server st n force out).1 = (finishStop st n).1 := by
              simp [stop_server, hsv, hrun, hp]
            rw [h1]; exact finishStop_framedAway st n m hnm
        | some q =>
            cases out with
            | exnFail =>
                have h1 : (stop_server st n force StopOutcome.exnFail).1 = st := by
                  simp [stop_server, hsv, hrun, hp]
                rw [h1]; exact framedAway_refl m st
            | graceful =>
                cases force with
                | true =>
                    have h1 : (stop_server st n true StopOutcome.graceful).1
                        = (finishStop
                            { st with
                              processes := dictDel st.processes n,
                              actions := st.actions
                                ++ [OsAction.signalGroup q "SIGKILL"] } n).1 := by
                      simp [stop_server, hsv, hrun, hp, pushAction]
                    rw [h1]
                    refine framedAway_trans ?_
                      (finishStop_framedAway
                        { st with
                          processes := dictDel st.processes n,
                          actions := st.actions
                            ++ [OsAction.signalGroup q "SIGKILL"] } n m hnm)
                    exact ⟨rfl, rfl, [OsAction.signalGroup q "SIGKILL"], rfl, by
                      simp [avoidsServer, isSpawnOf, isRestartLogOf]⟩
                | false =>
                    have h1 : (stop_server st n false StopOutcome.graceful).1
                        = (finishStop
                            { st with
                              processes := dictDel st.processes n,
                              actions := st.actions
                                ++ [OsAction.signalGroup q "SIGTERM",
                                    OsAction.waitProc q 10] } n).1 := by
                      simp [stop_server, hsv, hrun, hp, pushAction]
                    rw [h1]
                    refine framedAway_trans ?_
                      (finishStop_framedAway
                        { st with
                          processes := dictDel st.processes n,
                          actions := st.actions
                            ++ [OsAction.signalGroup q "SIGTERM",
                                OsAction.waitProc q 10] } n m hnm)
                    exact ⟨rfl, rfl, [OsAction.signalGroup q "SIGTERM",
                        OsAction.waitProc q 10], rfl, by
                      simp [avoidsServer, isSpawnOf, isRestartLogOf]⟩
            | timeoutKill =>
                cases force with
                | true =>
                    have h1 : (stop_server st n true StopOutcome.timeoutKill).1
                        = (finishStop
                            { st with
                              processes := dictDel st.processes n,
                              actions := st.actions
                                ++ [OsAction.signalGroup q "SIGKILL"] } n).1 := by
                      simp [stop_server, hsv, hrun, hp, pushAction]
                    rw [h1]
                    refine framedAway_trans ?_
                      (finishStop_framedAway
                        { st with
                          processes := dictDel st.processes n,
                          actions := st.actions
                            ++ [OsAction.signalGroup q "SIGKILL"] } n m hnm)
                    exact ⟨rfl, rfl, [OsAction.signalGroup q "SIGKILL"], rfl, by
                      simp [avoidsServer, isSpawnOf, isRestartLogOf]⟩
                | false =>
                    have h1 : (stop_server st n false StopOutcome.timeoutKill).1
                        = (finishStop
                            { st with
                              processes := dictDel st.processes n,
                              actions := st.actions
                                ++ [OsAction.signalGroup q "SIGTERM",
                                    OsAction.waitProc q 10,
                                    OsAction.signalGroup q "SIGKILL"] } n).1 := by
                      simp [stop_server, hsv, hrun, hp, pushAction]
                    rw [h1]
                    refine framedAway_trans ?_
                      (finishStop_framedAway
                        { st with
                          processes := dictDel st.processes n,
                          actions := st.actions
                            ++ [OsAction.signalGroup q "SIGTERM",
                                OsAction.waitProc q 10,
                                OsAction.signalGroup q "SIGKILL"] } n m hnm)
                    exact ⟨rfl, rfl, [OsAction.signalGroup q "SIGTERM",
                        OsAction.waitProc q 10,
                        OsAction.signalGroup q "SIGKILL"], rfl, by
                      simp [avoidsServer, isSpawnOf, isRestartLogOf]⟩
      · have h1 : (stop_server st n force out).1 = st := by
          simp [stop_server, hsv, hrun]
        rw [h1]; exact framedAway_refl m st

theorem health_check_framedAway (st : ManagerState) (n : String) (alive : Nat → Bool)
    (m : String) (hnm : n ≠ m) :
    FramedAway m st (health_check_server st n alive).1 := by
  cases hsv : dictGet st.servers n with
  | none =>
      have h1 : (health_check_server st n alive).1 = st := by
        simp [health_check_server, hsv]
      rw [h1]; exact framedAway_refl m st
  | some s =>
      by_cases hrun : s.status = "running"
      · cases hpid : s.pid with
        | none =>
            have h1 : (health_check_server st n alive).1 = st := by
              simp [health_check_server, hsv, hrun, hpid]
            rw [h1]; exact framedAway_refl m st
        | some p =>
            cases ha : alive p with
            | true =>
                have h1 : (health_check_server st n alive).1 = st := by
                  simp [health_check_server, hsv, hrun, hpid, ha]
                rw [h1]; exact framedAway_refl m st
            | false =>
                have h1 : (health_check_server st n alive).1
                    = { st with
                        servers := dictSet st.servers n
                          ({ s with status := "stopped", pid := none }) } := by
                  simp [health_check_server, hsv, hrun, hpid, ha]
                rw [h1]; exact framedAway_set_server st _ hnm
      · have h1 : (health_check_server st n alive).1 = st := by
          simp [health_check_server, hsv, hrun]
        rw [h1]; exact framedAway_refl m st

theorem restart_server_framedAway (st : ManagerState) (n : String)
    (sOut : StopOutcome) (spOut : SpawnOutcome) (now : Nat) (m : String)
    (hnm : n ≠ m) :
    FramedAway m st (restart_server st n sOut spOut now).1 := by
  cases hsv : dictGet st.servers n with
  | none =>
      unfold restart_server
      simp only [pushAction, hsv]
      by_cases h2 : (stop_server
          { st with actions := st.actions ++ [OsAction.restartLog n] }
          n false sOut).2 = true
      · rw [if_pos h2]
        refine framedAway_trans ?_
          (framedAway_trans
            (stop_server_framedAway
              { st with actions := st.actions ++ [OsAction.restartLog n] }
              n false sOut m hnm) ?_)
        · exact ⟨rfl, rfl, [OsAction.restartLog n], rfl,
            by simp [avoidsServer, isSpawnOf, isRestartLogOf, hnm]⟩
        · refine framedAway_trans
            (framedAway_push (stop_server
                { st with actions := st.actions ++ [OsAction.restartLog n] }
                n false sOut).1 (OsAction.sleep 2) ?_)
            (start_server_framedAway _ n false spOut now m hnm)
          simp [avoidsServer, isSpawnOf, isRestartLogOf]
      · rw [if_neg h2]
        refine framedAway_trans ?_
          (stop_server_framedAway
            { st with actions := st.actions ++ [OsAction.restartLog n] }
            n false sOut m hnm)
        exact ⟨rfl, rfl, [OsAction.restartLog n], rfl,
          by simp [avoidsServer, isSpawnOf, isRestartLogOf, hnm]⟩
  | some s =>
      unfold restart_server
      simp only [pushAction, hsv]
      by_cases h2 : (stop_server
          { st with
            servers := dictSet st.servers n
              ({ s with restart_count := s.restart_count + 1 }),
            actions := st.actions ++ [OsAction.restartLog n] }
          n false sOut).2 = true
      · rw [if_pos h2]
        refine framedAway_trans ?_
          (framedAway_trans
            (stop_server_framedAway
              { st with
                servers := dictSet st.servers n
                  ({ s with restart_count := s.restart_count + 1 }),
                actions := st.actions ++ [OsAction.restartLog n] }
              n false sOut m hnm) ?_)
        · exact ⟨rfl, dictGet_dictSet_ne _ _ _ _ hnm, [OsAction.restartLog n], rfl,
            by simp [avoidsServer, isSpawnOf, isRestartLogOf, hnm]⟩
        · refine framedAway_trans
            (framedAway_push (stop_server
                { st with
                  servers := dictSet st.servers n
                    ({ s with restart_count := s.restart_count + 1 }),
                  actions := st.actions ++ [OsAction.restartLog n] }
                n false sOut).1 (OsAction.sleep 2) ?_)
            (start_server_framedAway _ n false spOut now m hnm)
          simp [avoidsServer, isSpawnOf, isRestartLogOf]
      · rw [if_neg h2]
        refine framedAway_trans ?_
          (stop_server_framedAway
            { st with
              servers := dictSet st.servers n
                ({ s with restart_count := s.restart_count + 1 }),
              actions := st.actions ++ [OsAction.restartLog n] }
            n false sOut m hnm)
        exact ⟨rfl, dictGet_dictSet_ne _ _ _ _ hnm, [OsAction.restartLog n], rfl,
          by simp [avoidsServer, isSpawnOf, isRestartLogOf, hnm]⟩

theorem monitor_one_framedAway (env : TickEnv) (st : ManagerState) (n : String)
    (cfg : MCPServerConfig) (m : String) (hnm : n ≠ m) :
    FramedAway m st (monitor_one env st (n, cfg)) := by
  by_cases har : cfg.auto_restart = false
  · have h1 : monitor_one env st (n, cfg) = st := by simp [monitor_one, har]
    rw [h1]; exact framedAway_refl m st
  · cases hsv : dictGet st.servers n with
    | none =>
        have h1 : monitor_one env st (n, cfg) = st := by simp [monitor_one, har, hsv]
        rw [h1]; exact framedAway_refl m st
    | some s =>
        by_cases hcond : cfg.auto_start = true ∧ s.status ≠ "running"
        · by_cases hrc : s.restart_count < cfg.max_restarts
          · have h1 : monitor_one env st (n, cfg)
                = (start_server (pushAction st (OsAction.sleep cfg.restart_delay))
                    n false (env.spawn n) env.now).1 := by
              simp [monitor_one, har, hsv, hcond, hrc, pushAction]
            rw [h1]
            refine framedAway_trans
              (framedAway_push st (OsAction.sleep cfg.restart_delay) ?_)
              (start_server_framedAway _ n false (env.spawn n) env.now m hnm)
            simp [avoidsServer, isSpawnOf, isRestartLogOf]
          · have h1 : monitor_one env st (n, cfg) = st := by
              simp [monitor_one, har, hsv, hcond, hrc]
            rw [h1]; exact framedAway_refl m st
        · by_cases hrun : s.status = "running"
          · by_cases hh : (health_check_server st n env.alive).2 = false
            · cases hs1 : dictGet (health_check_server st n env.alive).1.servers n with
              | none =>
                  have h1 : monitor_one env st (n, cfg)
                      = (health_check_server st n env.alive).1 := by
                    simp [monitor_one, har, hsv, hcond, hrun, hh, hs1]
                  rw [h1]; exact health_check_framedAway st n env.alive m hnm
              | some s1 =>
                  by_cases h3 : s1.error_count + 1 ≥ 3
                  · cases hs3 : dictGet (restart_server
                        { (health_check_server st n env.alive).1 with
                          servers := dictSet
                            (health_check_server st n env.alive).1.servers n
                            ({ s1 with error_count := s1.error_count + 1 }) }
                        n (env.stop_out n) (env.spawn n) env.now).1.servers n with
                    | none =>
                        have h1 : monitor_one env st (n, cfg)
                            = (restart_server
                                { (health_check_server st n env.alive).1 with
                                  servers := dictSet
                                    (health_check_server st n env.alive).1.servers n
                                    ({ s1 with error_count := s1.error_count + 1 }) }
                                n (env.stop_out n) (env.spawn n) env.now).1 := by
                          simp [monitor_one, har, hsv, hcond, hrun, hh, hs1, h3, hs3]
                        rw [h1]
                        refine framedAway_trans
                          (health_check_framedAway st n env.alive m hnm)
                          (framedAway_trans
                            (framedAway_set_server
                              (health_check_server st n env.alive).1
                              ({ s1 with error_count := s1.error_count + 1 }) hnm)
                            (restart_server_framedAway _ n (env.stop_out n)
                              (env.spawn n) env.now m hnm))
                    | some s3 =>
                        have h1 : monitor_one env st (n, cfg)
                            = { (restart_server
                                  { (health_check_server st n env.alive).1 with
                                    servers := dictSet
                                      (health_check_server st n env.alive).1.servers n
                                      ({ s1 with error_count := s1.error_count + 1 }) }
                                  n (env.stop_out n) (env.spawn n) env.now).1 with
                                servers := dictSet (restart_server
                                  { (health_check_server st n env.alive).1 with
                                    servers := dictSet
                                      (health_check_server st n env.alive).1.servers n
                                      ({ s1 with error_count := s1.error_count + 1 }) }
                                  n (env.stop_out n) (env.spawn n) env.now).1.servers n
                                  ({ s3 with error_count := 0 }) } := by
                          simp [monitor_one, har, hsv, hcond, hrun, hh, hs1, h3, hs3]
                        rw [h1]
                        refine framedAway_trans
                          (health_check_framedAway st n env.alive m hnm)
                          (framedAway_trans
                            (framedAway_set_server
                              (health_check_server st n env.alive).1
                              ({ s1 with error_count := s1.error_count + 1 }) hnm)
                            (framedAway_trans
                              (restart_server_framedAway _ n (env.stop_out n)
                                (env.spawn n) env.now m hnm)
                              (framedAway_set_server _
                                ({ s3 with error_count := 0 }) hnm)))
                  · have h1 : monitor_one env st (n, cfg)
                        = { (health_check_server st n env.alive).1 with
                            servers := dictSet
                              (health_check_server st n env.alive).1.servers n
                              ({ s1 with error_count := s1.error_count + 1 }) } := by
                      simp [monitor_one, har, hsv, hcond, hrun, hh, hs1, h3]
                    rw [h1]
                    exact framedAway_trans
                      (health_check_framedAway st n env.alive m hnm)
                      (framedAway_set_server (health_check_server st n env.alive).1
                        ({ s1 with error_count := s1.error_count + 1 }) hnm)
            · cases hs1 : dictGet (health_check_server st n env.alive).1.servers n with
              | none =>
                  have h1 : monitor_one env st (n, cfg)
                      = (health_check_server st n env.alive).1 := by
                    simp [monitor_one, har, hsv, hcond, hrun, hh, hs1]
                  rw [h1]; exact health_check_framedAway st n env.alive m hnm
              | some s1 =>
                  have h1 : monitor_one env st (n, cfg)
                      = { (health_check_server st n env.alive).1 with
                          servers := dictSet
                            (health_check_server st n env.alive).1.servers n
                            ({ s1 with
                                error_count := 0,
                                last_health_check := some env.now }) } := by
                    simp [monitor_one, har, hsv, hcond, hrun, hh, hs1]
                  rw [h1]
                  exact framedAway_trans
                    (health_check_framedAway st n env.alive m hnm)
                    (framedAway_set_server (health_check_server st n env.alive).1
                      ({ s1 with
                          error_count := 0,
                          last_health_check := some env.now }) hnm)
          · have has' : ¬cfg.auto_start = true := fun h => hcond ⟨h, hrun⟩
            have h1 : monitor_one env st (n, cfg) = st := by
              simp [monitor_one, har, hsv, has', hrun]
            rw [h1]; exact framedAway_refl m st

theorem monitor_fold_framedAway (env : TickEnv) (m : String) :
    ∀ (l : List (String × MCPServerConfig)) (st : ManagerState),
      (∀ e ∈ l, e.1 ≠ m) → FramedAway m st (l.foldl (monitor_one env) st) := by
  intro l
  induction l with
  | nil => intro st _; exact framedAway_refl m st
  | cons e rest ih =>
      intro st h
      have he : e.1 ≠ m := h e (List.mem_cons_self e rest)
      have hrest : ∀ e' ∈ rest, e'.1 ≠ m :=
        fun e' he' => h e' (List.mem_cons_of_mem e he')
      rw [List.foldl_cons]
      refine framedAway_trans ?_ (ih (monitor_one env st e) hrest)
      obtain ⟨n, cfg⟩ := e
      exact monitor_one_framedAway env st n cfg m he

theorem dictGet_eq_of_mem {α : Type} (l : List (String × α)) (k : String) (v : α)
    (hnodup : (l.map Prod.fst).Nodup) (hmem : (k, v) ∈ l) :
    dictGet l k = some v := by
  induction l with
  | nil => cases hmem
  | cons hd tl ih =>
      obtain ⟨k', w⟩ := hd
      rcases List.mem_cons.mp hmem with heq | hmem'
      · cases heq
        simp [dictGet]
      · have hk : k' ≠ k := by
          intro h
          subst h
          have hmm : k' ∈ tl.map Prod.fst := List.mem_map_of_mem Prod.fst hmem'
          exact (List.nodup_cons.mp hnodup).1 hmm
        rw [List.map_cons, List.nodup_cons] at hnodup
        simp only [dictGet, if_neg hk]
        exact ih hnodup.2 hmem'

theorem monitor_tick_decomp (st : ManagerState) (env : TickEnv) (name : String)
    (cfg : MCPServerConfig)
    (hnodup : (st.server_configs.map Prod.fst).Nodup)
    (hmem : (name, cfg) ∈ st.server_configs) :
    ∃ st1, FramedAway name st st1
      ∧ FramedAway name (monitor_one env st1 (name, cfg)) (monitor_tick st env) := by
  obtain ⟨l1, l2, hsp⟩ := List.append_of_mem hmem
  have hmap : st.server_configs.map Prod.fst
      = l1.map Prod.fst ++ name :: l2.map Prod.fst := by
    rw [hsp]; simp
  rw [hmap] at hnodup
  obtain ⟨hnd1, hnd2, hdisj⟩ := List.nodup_append.mp hnodup
  have hn1 : ∀ e ∈ l1, e.1 ≠ name := by
    intro e he heq
    have hmm : e.1 ∈ l1.map Prod.fst := List.mem_map_of_mem Prod.fst he
    rw [heq] at hmm
    exact hdisj hmm (List.mem_cons_self _ _)
  have hn2 : ∀ e ∈ l2, e.1 ≠ name := by
    intro e he heq
    have hmm : e.1 ∈ l2.map Prod.fst := List.mem_map_of_mem Prod.fst he
    rw [heq] at hmm
    exact (List.nodup_cons.mp hnd2).1 hmm
  refine ⟨l1.foldl (monitor_one env) st, monitor_fold_framedAway env name l1 st hn1, ?_⟩
  have htick : monitor_tick st env
      = l2.foldl (monitor_one env)
          (monitor_one env (l1.foldl (monitor_one env) st) (name, cfg)) := by
    unfold monitor_tick
    rw [hsp, List.foldl_append, List.foldl_cons]
  rw [htick]
  exact monitor_fold_framedAway env name l2 _ hn2

theorem start_server_spawn_prefix (st : ManagerState) (n : String) (out : SpawnOutcome)
    (now : Nat) (cfg : MCPServerConfig)
    (hcfg : dictGet st.server_configs n = some cfg)
    (hnr : alreadyRunning st n = false) :
    ∃ rest, (start_server st n false out now).1.actions
      = st.actions ++ OsAction.spawnProc n :: rest := by
  cases out with
  | spawnFail =>
      cases hsv : dictGet st.servers n with
      | none =>
          exact ⟨[], by simp [start_server, hcfg, hnr, startBody, pushAction, hsv]⟩
      | some s =>
          exact ⟨[], by simp [start_server, hcfg, hnr, startBody, pushAction, hsv]⟩
  | spawned p alive =>
      cases alive with
      | true =>
          exact ⟨[OsAction.sleep 1], by
            simp [start_server, hcfg, hnr, startBody, pushAction, saveServerState,
              dictGet_dictSet_self]⟩
      | false =>
          exact ⟨[OsAction.sleep 1], by
            simp [start_server, hcfg, hnr, startBody, pushAction,
              dictGet_dictSet_self, dictSet_dictSet]⟩

theorem start_server_spawned_alive (st : ManagerState) (n : String) (p : Nat)
    (now : Nat) (cfg : MCPServerConfig)
    (hcfg : dictGet st.server_configs n = some cfg)
    (hnr : alreadyRunning st n = false) :
    dictGet (start_server st n false (SpawnOutcome.spawned p true) now).1.servers n
      = some { name := n, status := "running", pid := some p, port := none,
               command := cfg.command ++ cfg.args, start_time := some now } := by
  simp [start_server, hcfg, hnr, startBody, pushAction, saveServerState,
    dictGet_dictSet_self]

/-- C2 (amended): on every monitor iteration, every configured server with
`auto_restart = true` that has a runtime record, with `auto_start = true`,
whose status is not `"running"` and whose `restart_count < max_restarts`, is
started after waiting `restart_delay`: the iteration's trace contains the
`restart_delay` sleep immediately followed by the spawn attempt for that
server, and when the spawn succeeds and survives the grace poll the server's
record afterwards is `"running"` with the spawned PID.  (Servers with
`auto_restart = false`, or without a runtime record, are skipped — contrary
to the original claim's "regardless" clauses.) -/
theorem monitor_tick_auto_starts_eligible_server
    (st : ManagerState) (env : TickEnv) (name : String) (cfg : MCPServerConfig)
    (s : MCPServerStatus)
    (hnodup : (st.server_configs.map Prod.fst).Nodup)
    (hmem : (name, cfg) ∈ st.server_configs)
    (har : cfg.auto_restart = true) (has : cfg.auto_start = true)
    (hs : dictGet st.servers name = some s)
    (hnr : s.status ≠ "running")
    (hrc : s.restart_count < cfg.max_restarts) :
    (∃ pre suf, (monitor_tick st env).actions
        = pre ++ OsAction.sleep cfg.restart_delay :: OsAction.spawnProc name :: suf)
    ∧ (∀ p, env.spawn name = SpawnOutcome.spawned p true →
        ∃ s', dictGet (monitor_tick st env).servers name = some s'
          ∧ s'.status = "running" ∧ s'.pid = some p ∧ s'.restart_count = 0) := by
  obtain ⟨st1, hf1, hf2⟩ := monitor_tick_decomp st env name cfg hnodup hmem
  obtain ⟨hc1, hs1, d1, ha1, hall1⟩ := hf1
  obtain ⟨hc2, hs2, d2, ha2, hall2⟩ := hf2
  have hsX : dictGet st1.servers name = some s := hs1.trans hs
  have hcfg1 : dictGet st1.server_configs name = some cfg := by
    rw [hc1]; exact dictGet_eq_of_mem _ _ _ hnodup hmem
  have hone : monitor_one env st1 (name, cfg)
      = (start_server (pushAction st1 (OsAction.sleep cfg.restart_delay))
          name false (env.spawn name) env.now).1 := by
    simp [monitor_one, har, hsX, has, hnr, hrc, pushAction]
  have hcfgX : dictGet (pushAction st1 (OsAction.sleep cfg.restart_delay)).server_configs
      name = some cfg := hcfg1
  have hnrX : alreadyRunning (pushAction st1 (OsAction.sleep cfg.restart_delay)) name
      = false := by
    simp [alreadyRunning, pushAction, hsX, hnr]
  obtain ⟨rest, hacts⟩ := start_server_spawn_prefix
    (pushAction st1 (OsAction.sleep cfg.restart_delay)) name (env.spawn name)
    env.now cfg hcfgX hnrX
  constructor
  · refine ⟨st.actions ++ d1, rest ++ d2, ?_⟩
    rw [ha2, hone, hacts]
    simp [pushAction, ha1]
  · intro p hsp
    have hget := start_server_spawned_alive
      (pushAction st1 (OsAction.sleep cfg.restart_delay)) name p env.now cfg hcfgX hnrX
    refine ⟨{ name := name, status := "running", pid := some p, port := none,
              command := cfg.command ++ cfg.args, start_time := some env.now },
            ?_, rfl, rfl, rfl⟩
    rw [hs2, hone, hsp]
    exact hget

/-- Witness for `monitor_tick_auto_starts_eligible_server` on the crash-loop
fixture. -/
theorem monitor_tick_auto_starts_eligible_server_witness :
    ((crashLoopInit.server_configs.map Prod.fst).Nodup
      ∧ ("alpha", crashLoopConfig) ∈ crashLoopInit.server_configs
      ∧ crashLoopConfig.auto_restart = true
      ∧ crashLoopConfig.auto_start = true
      ∧ dictGet crashLoopInit.servers "alpha" = some stoppedAlpha
      ∧ stoppedAlpha.status ≠ "running"
      ∧ stoppedAlpha.restart_count < crashLoopConfig.max_restarts)
    ∧ ((∃ pre suf, (monitor_tick crashLoopInit (upTick 100 1)).actions
        = pre ++ OsAction.sleep crashLoopConfig.restart_delay
            :: OsAction.spawnProc "alpha" :: suf)
      ∧ (∀ p, (upTick 100 1).spawn "alpha" = SpawnOutcome.spawned p true →
          ∃ s', dictGet (monitor_tick crashLoopInit (upTick 100 1)).servers "alpha"
              = some s'
            ∧ s'.status = "running" ∧ s'.pid = some p ∧ s'.restart_count = 0)) :=
  ⟨⟨by decide, by decide, by decide, by decide, by decide, by decide, by decide⟩,
   monitor_tick_auto_starts_eligible_server crashLoopInit (upTick 100 1) "alpha"
     crashLoopConfig stoppedAlpha (by decide) (by decide) (by decide) (by decide)
     (by decide) (by decide) (by decide)⟩

theorem countP_restartLog_eq_zero {m : String} {d : List OsAction}
    (h : d.all (avoidsServer m) = true) :
    d.countP (isRestartLogOf m) = 0 := by
  induction d with
  | nil => rfl
  | cons a rest ih =>
      rw [List.all_cons, Bool.and_eq_true] at h
      obtain ⟨h1, h2⟩ := h
      simp only [avoidsServer, Bool.and_eq_true, Bool.not_eq_true'] at h1
      rw [List.countP_cons, ih h2]
      simp [h1.1]

theorem restart_on_stopped_count (X : ManagerState) (n : String) (sOut : StopOutcome)
    (spOut : SpawnOutcome) (now : Nat) (cfg : MCPServerConfig) (s : MCPServerStatus)
    (hcfg : dictGet X.server_configs n = some cfg)
    (hsv : dictGet X.servers n = some s)
    (hnr : s.status ≠ "running") :
    ((restart_server X n sOut spOut now).1.actions.countP (isRestartLogOf n)
      = X.actions.countP (isRestartLogOf n) + 1)
    ∧ ∃ s', dictGet (restart_server X n sOut spOut now).1.servers n = some s' := by
  cases spOut with
  | spawnFail =>
      constructor
      · simp [restart_server, stop_server, start_server, startBody, alreadyRunning,
          pushAction, saveServerState, hcfg, hsv, hnr, dictGet_dictSet_self,
          dictSet_dictSet, List.countP_append, List.countP_cons, isRestartLogOf]
      · exact ⟨{ s with restart_count := s.restart_count + 1, status := "error" }, by
          simp [restart_server, stop_server, start_server, startBody, alreadyRunning,
            pushAction, saveServerState, hcfg, hsv, hnr, dictGet_dictSet_self,
            dictSet_dictSet]⟩
  | spawned p alive =>
      cases alive with
      | true =>
          constructor
          · simp [restart_server, stop_server, start_server, startBody, alreadyRunning,
              pushAction, saveServerState, hcfg, hsv, hnr, dictGet_dictSet_self,
              dictSet_dictSet, List.countP_append, List.countP_cons, isRestartLogOf]
          · exact ⟨{ name := n, status := "running", pid := some p, port := none,
                     command := cfg.command ++ cfg.args, start_time := some now }, by
              simp [restart_server, stop_server, start_server, startBody, alreadyRunning,
                pushAction, saveServerState, hcfg, hsv, hnr, dictGet_dictSet_self,
                dictSet_dictSet]⟩
      | false =>
          constructor
          · simp [restart_server, stop_server, start_server, startBody, alreadyRunning,
              pushAction, saveServerState, hcfg, hsv, hnr, dictGet_dictSet_self,
              dictSet_dictSet, List.countP_append, List.countP_cons, isRestartLogOf]
          · exact ⟨{ name := n, status := "error", pid := some p, port := none,
                     command := cfg.command ++ cfg.args, start_time := some now }, by
              simp [restart_server, stop_server, start_server, startBody, alreadyRunning,
                pushAction, saveServerState, hcfg, hsv, hnr, dictGet_dictSet_self,
                dictSet_dictSet]⟩

/-- C3 (amended): on every monitor iteration, every server with
`auto_restart = true` and a runtime record whose status is `"running"` is
health-checked (a PID-exists check when a PID is recorded).  A successful
check resets `error_count` to 0 and stamps `last_health_check`.  A failed
check (recorded PID vanished) increments `error_count` — and, via the check
itself, flips the record to `"stopped"` with the PID cleared; when the
incremented counter reaches 3 the iteration performs exactly one
`restart_server` call and `error_count` ends at 0.  (Servers with
`auto_restart = false` or without a runtime record are never checked —
contrary to the original claim's "every server".) -/
theorem monitor_tick_health_check_behaviour
    (st : ManagerState) (env : TickEnv) (name : String) (cfg : MCPServerConfig)
    (s : MCPServerStatus)
    (hnodup : (st.server_configs.map Prod.fst).Nodup)
    (hmem : (name, cfg) ∈ st.server_configs)
    (har : cfg.auto_restart = true)
    (hs : dictGet st.servers name = some s)
    (hrun : s.status = "running") :
    ((s.pid = none ∨ ∃ p, s.pid = some p ∧ env.alive p = true) →
      ∃ s', dictGet (monitor_tick st env).servers name = some s'
        ∧ s'.status = "running" ∧ s'.pid = s.pid
        ∧ s'.error_count = 0 ∧ s'.last_health_check = some env.now
        ∧ s'.restart_count = s.restart_count
        ∧ (monitor_tick st env).actions.countP (isRestartLogOf name)
            = st.actions.countP (isRestartLogOf name))
    ∧ (∀ p, s.pid = some p → env.alive p = false → s.error_count + 1 < 3 →
      ∃ s', dictGet (monitor_tick st env).servers name = some s'
        ∧ s'.status = "stopped" ∧ s'.pid = none
        ∧ s'.error_count = s.error_count + 1
        ∧ (monitor_tick st env).actions.countP (isRestartLogOf name)
            = st.actions.countP (isRestartLogOf name))
    ∧ (∀ p, s.pid = some p → env.alive p = false → 3 ≤ s.error_count + 1 →
      (∃ s', dictGet (monitor_tick st env).servers name = some s'
        ∧ s'.error_count = 0)
      ∧ (monitor_tick st env).actions.countP (isRestartLogOf name)
          = st.actions.countP (isRestartLogOf name) + 1) := by
  obtain ⟨st1, hf1, hf2⟩ := monitor_tick_decomp st env name cfg hnodup hmem
  obtain ⟨hc1, hs1, d1, ha1, hall1⟩ := hf1
  obtain ⟨hc2, hs2, d2, ha2, hall2⟩ := hf2
  have hsX : dictGet st1.servers name = some s := hs1.trans hs
  have hcfg1 : dictGet st1.server_configs name = some cfg := by
    rw [hc1]; exact dictGet_eq_of_mem _ _ _ hnodup hmem
  have hcnt1 : st1.actions.countP (isRestartLogOf name)
      = st.actions.countP (isRestartLogOf name) := by
    rw [ha1, List.countP_append, countP_restartLog_eq_zero hall1]
    simp
  have hcnt2 : (monitor_tick st env).actions.countP (isRestartLogOf name)
      = (monitor_one env st1 (name, cfg)).actions.countP (isRestartLogOf name) := by
    rw [ha2, List.countP_append, countP_restartLog_eq_zero hall2]
    simp
  refine ⟨?_, ?_, ?_⟩
  · intro hok
    have hhc : health_check_server st1 name env.alive = (st1, true) := by
      rcases hok with hnone | ⟨p, hp, ha⟩
      · simp [health_check_server, hsX, hrun, hnone]
      · simp [health_check_server, hsX, hrun, hp, ha]
    have hone : monitor_one env st1 (name, cfg)
        = { st1 with
            servers := dictSet st1.servers name
              ({ s with
                  error_count := 0,
                  last_health_check := some env.now }) } := by
      simp [monitor_one, har, hsX, hrun, hhc]
    refine ⟨{ s with error_count := 0, last_health_check := some env.now },
            ?_, hrun, rfl, rfl, rfl, rfl, ?_⟩
    · rw [hs2, hone]
      exact dictGet_dictSet_self _ _ _
    · have hact : (monitor_one env st1 (name, cfg)).actions = st1.actions := by
        rw [hone]
      rw [hcnt2, hact, hcnt1]
  · intro p hp ha hsmall
    have hns : ¬3 ≤ s.error_count + 1 := Nat.not_le.mpr hsmall
    have hhc : health_check_server st1 name env.alive
        = ({ st1 with
              servers := dictSet st1.servers name
                ({ s with status := "stopped", pid := none }) }, false) := by
      simp [health_check_server, hsX, hrun, hp, ha]
    have hone : monitor_one env st1 (name, cfg)
        = { st1 with
            servers := dictSet st1.servers name
              ({ s with
                  status := "stopped", pid := none,
                  error_count := s.error_count + 1 }) } := by
      simp [monitor_one, har, hsX, hrun, hhc, dictGet_dictSet_self, dictSet_dictSet,
        hns]
    refine ⟨{ s with
                status := "stopped", pid := none,
                error_count := s.error_count + 1 },
            ?_, rfl, rfl, rfl, ?_⟩
    · rw [hs2, hone]
      exact dictGet_dictSet_self _ _ _
    · have hact : (monitor_one env st1 (name, cfg)).actions = st1.actions := by
        rw [hone]
      rw [hcnt2, hact, hcnt1]
  · intro p hp ha hbig
    have hhc : health_check_server st1 name env.alive
        = ({ st1 with
              servers := dictSet st1.servers name
                ({ s with status := "stopped", pid := none }) }, false) := by
      simp [health_check_server, hsX, hrun, hp, ha]
    have hrest := restart_on_stopped_count
      { st1 with
        servers := dictSet st1.servers name
          ({ s with
              status := "stopped", pid := none,
              error_count := s.error_count + 1 }) }
      name (env.stop_out name) (env.spawn name) env.now cfg
      ({ s with
          status := "stopped", pid := none,
          error_count := s.error_count + 1 })
      hcfg1 (dictGet_dictSet_self _ _ _) (by simp)
    obtain ⟨hcount, s3, hs3⟩ := hrest
    have hone : monitor_one env st1 (name, cfg)
        = { (restart_server
              { st1 with
                servers := dictSet st1.servers name
                  ({ s with
                      status := "stopped", pid := none,
                      error_count := s.error_count + 1 }) }
              name (env.stop_out name) (env.spawn name) env.now).1 with
            servers := dictSet (restart_server
              { st1 with
                servers := dictSet st1.servers name
                  ({ s with
                      status := "stopped", pid := none,
                      error_count := s.error_count + 1 }) }
              name (env.stop_out name) (env.spawn name) env.now).1.servers name
              ({ s3 with error_count := 0 }) } := by
      simp [monitor_one, har, hsX, hrun, hhc, dictGet_dictSet_self, dictSet_dictSet,
        hbig, hs3]
    constructor
    · refine ⟨{ s3 with error_count := 0 }, ?_, rfl⟩
      rw [hs2, hone]
      exact dictGet_dictSet_self _ _ _
    · have hact : (monitor_one env st1 (name, cfg)).actions
          = (restart_server
              { st1 with
                servers := dictSet st1.servers name
                  ({ s with
                      status := "stopped", pid := none,
                      error_count := s.error_count + 1 }) }
              name (env.stop_out name) (env.spawn name) env.now).1.actions := by
        rw [hone]
      rw [hcnt2, hact, hcount]
      simp [hcnt1]

/-- Witness for `monitor_tick_health_check_behaviour` on a running monitored
server. -/
theorem monitor_tick_health_check_behaviour_witness :
    ((monitoredRunningState.server_configs.map Prod.fst).Nodup
      ∧ ("alpha", crashLoopConfig) ∈ monitoredRunningState.server_configs
      ∧ crashLoopConfig.auto_restart = true
      ∧ dictGet monitoredRunningState.servers "alpha" = some runningAlpha
      ∧ runningAlpha.status = "running")
    ∧ (((runningAlpha.pid = none
          ∨ ∃ p, runningAlpha.pid = some p ∧ (deadTick 2).alive p = true) →
        ∃ s', dictGet (monitor_tick monitoredRunningState (deadTick 2)).servers "alpha"
            = some s'
          ∧ s'.status = "running" ∧ s'.pid = runningAlpha.pid
          ∧ s'.error_count = 0 ∧ s'.last_health_check = some (deadTick 2).now
          ∧ s'.restart_count = runningAlpha.restart_count
          ∧ (monitor_tick monitoredRunningState (deadTick 2)).actions.countP
              (isRestartLogOf "alpha")
              = monitoredRunningState.actions.countP (isRestartLogOf "alpha"))
      ∧ (∀ p, runningAlpha.pid = some p → (deadTick 2).alive p = false →
          runningAlpha.error_count + 1 < 3 →
        ∃ s', dictGet (monitor_tick monitoredRunningState (deadTick 2)).servers "alpha"
            = some s'
          ∧ s'.status = "stopped" ∧ s'.pid = none
          ∧ s'.error_count = runningAlpha.error_count + 1
          ∧ (monitor_tick monitoredRunningState (deadTick 2)).actions.countP
              (isRestartLogOf "alpha")
              = monitoredRunningState.actions.countP (isRestartLogOf "alpha"))
      ∧ (∀ p, runningAlpha.pid = some p → (deadTick 2).alive p = false →
          3 ≤ runningAlpha.error_count + 1 →
        (∃ s', dictGet (monitor_tick monitoredRunningState (deadTick 2)).servers "alpha"
            = some s'
          ∧ s'.error_count = 0)
        ∧ (monitor_tick monitoredRunningState (deadTick 2)).actions.countP
            (isRestartLogOf "alpha")
            = monitoredRunningState.actions.countP (isRestartLogOf "alpha") + 1)) :=
  ⟨⟨by decide, by decide, by decide, by decide, by decide⟩,
   monitor_tick_health_check_behaviour monitoredRunningState (deadTick 2) "alpha"
     crashLoopConfig runningAlpha (by decide) (by decide) (by decide) (by decide)
     (by decide)⟩

theorem statusOk_mk_of (s t : MCPServerStatus) (hst : t.status = s.status)
    (hp : t.pid = s.pid) (h : statusOk s = true) : statusOk t = true := by
  unfold statusOk at h ⊢
  rw [hst, hp]
  exact h

theorem all_statusOk_dictSet (l : List (String × MCPServerStatus)) (k : String)
    (v : MCPServerStatus) (hl : l.all (fun kv => statusOk kv.2) = true)
    (hv : statusOk v = true) :
    (dictSet l k v).all (fun kv => statusOk kv.2) = true := by
  induction l with
  | nil => simp [dictSet, hv]
  | cons hd tl ih =>
      obtain ⟨k', w⟩ := hd
      rw [List.all_cons, Bool.and_eq_true] at hl
      by_cases h : k' = k
      · subst h
        simp [dictSet, hv, hl.2]
      · simp only [dictSet, if_neg h, List.all_cons, Bool.and_eq_true]
        exact ⟨hl.1, ih hl.2⟩

theorem statusOk_of_dictGet (l : List (String × MCPServerStatus)) (k : String)
    (s : MCPServerStatus) (hl : l.all (fun kv => statusOk kv.2) = true)
    (h : dictGet l k = some s) : statusOk s = true := by
  induction l with
  | nil => cases h
  | cons hd tl ih =>
      obtain ⟨k', w⟩ := hd
      rw [List.all_cons, Bool.and_eq_true] at hl
      by_cases hk : k' = k
      · rw [dictGet, if_pos hk] at h
        injection h with hws
        rw [← hws]
        exact hl.1
      · rw [dictGet, if_neg hk] at h
        exact ih hl.2 h

theorem running_has_pid_startBody (st : ManagerState) (n : String)
    (cfg : MCPServerConfig) (out : SpawnOutcome) (now : Nat)
    (h : running_has_pid st = true) :
    running_has_pid (startBody st n cfg out now).1 = true := by
  cases out with
  | spawnFail =>
      cases hsv : dictGet st.servers n with
      | none =>
          have h1 : (startBody st n cfg SpawnOutcome.spawnFail now).1.servers
              = st.servers := by
            simp [startBody, pushAction, hsv]
          unfold running_has_pid at h ⊢
          rw [h1]; exact h
      | some s =>
          have h1 : (startBody st n cfg SpawnOutcome.spawnFail now).1.servers
              = dictSet st.servers n ({ s with status := "error" }) := by
            simp [startBody, pushAction, hsv]
          unfold running_has_pid at h ⊢
          rw [h1]
          exact all_statusOk_dictSet _ _ _ h (by simp [statusOk])
  | spawned p alive =>
      cases alive with
      | true =>
          have h1 : (startBody st n cfg (SpawnOutcome.spawned p true) now).1.servers
              = dictSet st.servers n
                  ({ name := n, status := "running", pid := some p, port := none,
                     command := cfg.command ++ cfg.args, start_time := some now }) := by
            simp [startBody, pushAction, saveServerState, dictGet_dictSet_self]
          unfold running_has_pid at h ⊢
          rw [h1]
          exact all_statusOk_dictSet _ _ _ h (by simp [statusOk])
      | false =>
          have h1 : (startBody st n cfg (SpawnOutcome.spawned p false) now).1.servers
              = dictSet st.servers n
                  ({ name := n, status := "error", pid := some p, port := none,
                     command := cfg.command ++ cfg.args, start_time := some now }) := by
            simp [startBody, pushAction, dictGet_dictSet_self, dictSet_dictSet]
          unfold running_has_pid at h ⊢
          rw [h1]
          exact all_statusOk_dictSet _ _ _ h (by simp [statusOk])

theorem running_has_pid_start (st : ManagerState) (n : String) (force : Bool)
    (out : SpawnOutcome) (now : Nat) (h : running_has_pid st = true) :
    running_has_pid (start_server st n force out now).1 = true := by
  cases hc : dictGet st.server_configs n with
  | none =>
      have h1 : (start_server st n force out now).1 = st := by simp [start_server, hc]
      rw [h1]; exact h
  | some cfg =>
      by_cases hr : alreadyRunning st n = true ∧ force = false
      · have h1 : (start_server st n force out now).1 = st := by
          simp [start_server, hc, hr]
        rw [h1]; exact h
      · have h1 : (start_server st n force out now).1 = (startBody st n cfg out now).1 := by
          simp [start_server, hc, hr]
        rw [h1]; exact running_has_pid_startBody st n cfg out now h

theorem running_has_pid_finishStop (st : ManagerState) (n : String)
    (h : running_has_pid st = true) :
    running_has_pid (finishStop st n).1 = true := by
  cases hsv : dictGet st.servers n with
  | none =>
      have h1 : (finishStop st n).1 = st := by simp [finishStop, hsv]
      rw [h1]; exact h
  | some s =>
      have h1 : (finishStop st n).1.servers
          = dictSet st.servers n ({ s with status := "stopped", pid := none }) := by
        simp [finishStop, hsv, saveServerState, dictGet_dictSet_self]
      unfold running_has_pid at h ⊢
      rw [h1]
      exact all_statusOk_dictSet _ _ _ h (by simp [statusOk])

theorem running_has_pid_stop (st : ManagerState) (n : String) (force : Bool)
    (out : StopOutcome) (h : running_has_pid st = true) :
    running_has_pid (stop_server st n force out).1 = true := by
  cases hsv : dictGet st.servers n with
  | none =>
      have h1 : (stop_server st n force out).1 = st := by simp [stop_server, hsv]
      rw [h1]; exact h
  | some s =>
      by_cases hrun : s.status = "running"
      · cases hp : dictGet st.processes n with
        | none =>
            have h1 : (stop_server st n force out).1 = (finishStop st n).1 := by
              simp [stop_server, hsv, hrun, hp]
            rw [h1]; exact running_has_pid_finishStop st n h
        | some q =>
            cases out with
            | exnFail =>
                have h1 : (stop_server st n force StopOutcome.exnFail).1 = st := by
                  simp [stop_server, hsv, hrun, hp]
                rw [h1]; exact h
            | graceful =>
                cases force with
                | true =>
                    have h1 : (stop_server st n true StopOutcome.graceful).1
                        = (finishStop
                            { st with
                              processes := dictDel st.processes n,
                              actions := st.actions
                                ++ [OsAction.signalGroup q "SIGKILL"] } n).1 := by
                      simp [stop_server, hsv, hrun, hp, pushAction]
                    rw [h1]
                    exact running_has_pid_finishStop _ n h
                | false =>
                    have h1 : (stop_server st n false StopOutcome.graceful).1
                        = (finishStop
                            { st with
                              processes := dictDel st.processes n,
                              actions := st.actions
                                ++ [OsAction.signalGroup q "SIGTERM",
                                    OsAction.waitProc q 10] } n).1 := by
                      simp [stop_server, hsv, hrun, hp, pushAction]
                    rw [h1]
                    exact running_has_pid_finishStop _ n h
            | timeoutKill =>
                cases force with
                | true =>
                    have h1 : (stop_server st n true StopOutcome.timeoutKill).1
                        = (finishStop
                            { st with
                              processes := dictDel st.processes n,
                              actions := st.actions
                                ++ [OsAction.signalGroup q "SIGKILL"] } n).1 := by
                      simp [stop_server, hsv, hrun, hp, pushAction]
                    rw [h1]
                    exact running_has_pid_finishStop _ n h
                | false =>
                    have h1 : (stop_server st n false StopOutcome.timeoutKill).1
                        = (finishStop
                            { st with
                              processes := dictDel st.processes n,
                              actions := st.actions
                                ++ [OsAction.signalGroup q "SIGTERM",
                                    OsAction.waitProc q 10,
                                    OsAction.signalGroup q "SIGKILL"] } n).1 := by
                      simp [stop_server, hsv, hrun, hp, pushAction]
                    rw [h1]
                    exact running_has_pid_finishStop _ n h
      · have h1 : (stop_server st n force out).1 = st := by
          simp [stop_server, hsv, hrun]
        rw [h1]; exact h

theorem running_has_pid_restart (st : ManagerState) (n : String)
    (sOut : StopOutcome) (spOut : SpawnOutcome) (now : Nat)
    (h : running_has_pid st = true) :
    running_has_pid (restart_server st n sOut spOut now).1 = true := by
  cases hsv : dictGet st.servers n with
  | none =>
      unfold restart_server
      simp only [pushAction, hsv]
      by_cases h2 : (stop_server
          { st with actions := st.actions ++ [OsAction.restartLog n] }
          n false sOut).2 = true
      · rw [if_pos h2]
        exact running_has_pid_start _ n false spOut now
          (running_has_pid_stop _ n false sOut h)
      · rw [if_neg h2]
        exact running_has_pid_stop _ n false sOut h
  | some s =>
      have hbump : running_has_pid
          { st with
            servers := dictSet st.servers n
              ({ s with restart_count := s.restart_count + 1 }),
            actions := st.actions ++ [OsAction.restartLog n] } = true := by
        unfold running_has_pid at h ⊢
        exact all_statusOk_dictSet _ _ _ h
          (statusOk_mk_of s _ rfl rfl (statusOk_of_dictGet _ _ _ h hsv))
      unfold restart_server
      simp only [pushAction, hsv]
      by_cases h2 : (stop_server
          { st with
            servers := dictSet st.servers n
              ({ s with restart_count := s.restart_count + 1 }),
            actions := st.actions ++ [OsAction.restartLog n] }
          n false sOut).2 = true
      · rw [if_pos h2]
        exact running_has_pid_start _ n false spOut now
          (running_has_pid_stop _ n false sOut hbump)
      · rw [if_neg h2]
        exact running_has_pid_stop _ n false sOut hbump

theorem running_has_pid_health (st : ManagerState) (n : String) (alive : Nat → Bool)
    (h : running_has_pid st = true) :
    running_has_pid (health_check_server st n alive).1 = true := by
  cases hsv : dictGet st.servers n with
  | none =>
      have h1 : (health_check_server st n alive).1 = st := by
        simp [health_check_server, hsv]
      rw [h1]; exact h
  | some s =>
      by_cases hrun : s.status = "running"
      · cases hpid : s.pid with
        | none =>
            have h1 : (health_check_server st n alive).1 = st := by
              simp [health_check_server, hsv, hrun, hpid]
            rw [h1]; exact h
        | some p =>
            cases ha : alive p with
            | true =>
                have h1 : (health_check_server st n alive).1 = st := by
                  simp [health_check_server, hsv, hrun, hpid, ha]
                rw [h1]; exact h
            | false =>
                have h1 : (health_check_server st n alive).1.servers
                    = dictSet st.servers n
                        ({ s with status := "stopped", pid := none }) := by
                  simp [health_check_server, hsv, hrun, hpid, ha]
                unfold running_has_pid at h ⊢
                rw [h1]
                exact all_statusOk_dictSet _ _ _ h (by simp [statusOk])
      · have h1 : (health_check_server st n alive).1 = st := by
          simp [health_check_server, hsv, hrun]
        rw [h1]; exact h

theorem running_has_pid_metrics (st : ManagerState) (alive : Nat → Bool)
    (h : running_has_pid st = true) :
    running_has_pid (update_server_metrics st alive) = true := by
  unfold running_has_pid at h ⊢
  simp only [update_server_metrics]
  rw [List.all_eq_true] at h ⊢
  intro kv hkv
  obtain ⟨kv0, hkv0, rfl⟩ := List.mem_map.mp hkv
  have h0 := h kv0 hkv0
  unfold update_one_metric
  by_cases hrun : kv0.2.status = "running"
  · rw [if_pos hrun]
    cases hpid : kv0.2.pid with
    | none => exact h0
    | some p =>
        cases ha : alive p with
        | true => simpa [ha] using h0
        | false => simp [ha, statusOk]
  · rw [if_neg hrun]
    exact h0

theorem running_has_pid_monitor_one (env : TickEnv) (st : ManagerState) (n : String)
    (cfg : MCPServerConfig) (h : running_has_pid st = true) :
    running_has_pid (monitor_one env st (n, cfg)) = true := by
  by_cases har : cfg.auto_restart = false
  · have h1 : monitor_one env st (n, cfg) = st := by simp [monitor_one, har]
    rw [h1]; exact h
  · cases hsv : dictGet st.servers n with
    | none =>
        have h1 : monitor_one env st (n, cfg) = st := by simp [monitor_one, har, hsv]
        rw [h1]; exact h
    | some s =>
        by_cases hcond : cfg.auto_start = true ∧ s.status ≠ "running"
        · by_cases hrc : s.restart_count < cfg.max_restarts
          · have h1 : monitor_one env st (n, cfg)
                = (start_server (pushAction st (OsAction.sleep cfg.restart_delay))
                    n false (env.spawn n) env.now).1 := by
              simp [monitor_one, har, hsv, hcond, hrc, pushAction]
            rw [h1]
            exact running_has_pid_start _ n false (env.spawn n) env.now h
          · have h1 : monitor_one env st (n, cfg) = st := by
              simp [monitor_one, har, hsv, hcond, hrc]
            rw [h1]; exact h
        · by_cases hrun : s.status = "running"
          · have hinv1 : running_has_pid (health_check_server st n env.alive).1 = true :=
              running_has_pid_health st n env.alive h
            by_cases hh : (health_check_server st n env.alive).2 = false
            · cases hs1 : dictGet (health_check_server st n env.alive).1.servers n with
              | none =>
                  have h1 : monitor_one env st (n, cfg)
                      = (health_check_server st n env.alive).1 := by
                    simp [monitor_one, har, hsv, hcond, hrun, hh, hs1]
                  rw [h1]; exact hinv1
              | some s1 =>
                  have hok1 : statusOk s1 = true :=
                    statusOk_of_dictGet _ _ _ hinv1 hs1
                  have hinv2 : running_has_pid
                      { (health_check_server st n env.alive).1 with
                        servers := dictSet
                          (health_check_server st n env.alive).1.servers n
                          ({ s1 with error_count := s1.error_count + 1 }) } = true :=
                    all_statusOk_dictSet _ _ _ hinv1
                      (statusOk_mk_of s1 _ rfl rfl hok1)
                  by_cases h3 : s1.error_count + 1 ≥ 3
                  · have hinv3 : running_has_pid (restart_server
                        { (health_check_server st n env.alive).1 with
                          servers := dictSet
                            (health_check_server st n env.alive).1.servers n
                            ({ s1 with error_count := s1.error_count + 1 }) }
                        n (env.stop_out n) (env.spawn n) env.now).1 = true :=
                      running_has_pid_restart _ n (env.stop_out n) (env.spawn n)
                        env.now hinv2
                    cases hs3 : dictGet (restart_server
                        { (health_check_server st n env.alive).1 with
                          servers := dictSet
                            (health_check_server st n env.alive).1.servers n
                            ({ s1 with error_count := s1.error_count + 1 }) }
                        n (env.stop_out n) (env.spawn n) env.now).1.servers n with
                    | none =>
                        have h1 : monitor_one env st (n, cfg)
                            = (restart_server
                                { (health_check_server st n env.alive).1 with
                                  servers := dictSet
                                    (health_check_server st n env.alive).1.servers n
                                    ({ s1 with error_count := s1.error_count + 1 }) }
                                n (env.stop_out n) (env.spawn n) env.now).1 := by
                          simp [monitor_one, har, hsv, hcond, hrun, hh, hs1, h3, hs3]
                        rw [h1]; exact hinv3
                    | some s3 =>
                        have hok3 : statusOk s3 = true :=
                          statusOk_of_dictGet _ _ _ hinv3 hs3
                        have h1 : monitor_one env st (n, cfg)
                            = { (restart_server
                                  { (health_check_server st n env.alive).1 with
                                    servers := dictSet
                                      (health_check_server st n env.alive).1.servers n
                                      ({ s1 with error_count := s1.error_count + 1 }) }
                                  n (env.stop_out n) (env.spawn n) env.now).1 with
                                servers := dictSet (restart_server
                                  { (health_check_server st n env.alive).1 with
                                    servers := dictSet
                                      (health_check_server st n env.alive).1.servers n
                                      ({ s1 with error_count := s1.error_count + 1 }) }
                                  n (env.stop_out n) (env.spawn n) env.now).1.servers n
                                  ({ s3 with error_count := 0 }) } := by
                          simp [monitor_one, har, hsv, hcond, hrun, hh, hs1, h3, hs3]
                        rw [h1]
                        exact all_statusOk_dictSet _ _ _ hinv3
                          (statusOk_mk_of s3 _ rfl rfl hok3)
                  · have h1 : monitor_one env st (n, cfg)
                        = { (health_check_server st n env.alive).1 with
                            servers := dictSet
                              (health_check_server st n env.alive).1.servers n
                              ({ s1 with error_count := s1.error_count + 1 }) } := by
                      simp [monitor_one, har, hsv, hcond, hrun, hh, hs1, h3]
                    rw [h1]; exact hinv2
            · cases hs1 : dictGet (health_check_server st n env.alive).1.servers n with
              | none =>
                  have h1 : monitor_one env st (n, cfg)
                      = (health_check_server st n env.alive).1 := by
                    simp [monitor_one, har, hsv, hcond, hrun, hh, hs1]
                  rw [h1]; exact hinv1
              | some s1 =>
                  have hok1 : statusOk s1 = true :=
                    statusOk_of_dictGet _ _ _ hinv1 hs1
                  have h1 : monitor_one env st (n, cfg)
                      = { (health_check_server st n env.alive).1 with
                          servers := dictSet
                            (health_check_server st n env.alive).1.servers n
                            ({ s1 with
                                error_count := 0,
                                last_health_check := some env.now }) } := by
                    simp [monitor_one, har, hsv, hcond, hrun, hh, hs1]
                  rw [h1]
                  exact all_statusOk_dictSet _ _ _ hinv1
                    (statusOk_mk_of s1 _ rfl rfl hok1)
          · have has' : ¬cfg.auto_start = true := fun hx => hcond ⟨hx, hrun⟩
            have h1 : monitor_one env st (n, cfg) = st := by
              simp [monitor_one, har, hsv, has', hrun]
            rw [h1]; exact h

theorem running_has_pid_fold (env : TickEnv) :
    ∀ (l : List (String × MCPServerConfig)) (st : ManagerState),
      running_has_pid st = true →
      running_has_pid (l.foldl (monitor_one env) st) = true := by
  intro l
  induction l with
  | nil => intro st h; exact h
  | cons e rest ih =>
      intro st h
      rw [List.foldl_cons]
      refine ih (monitor_one env st e) ?_
      obtain ⟨n, cfg⟩ := e
      exact running_has_pid_monitor_one env st n cfg h

/-- C9: (1) the invariant "every record marked `"running"` holds a non-null
PID" is preserved by every manager operation — start, stop, restart, the
status refresh, deploy, and a full monitor iteration; (2) a status refresh
(`_update_server_metrics`) that finds a running server's process vanished
flips that record to `"stopped"` with the PID cleared; (3) a monitor health
check that finds the process vanished does the same and reports failure. -/
theorem running_server_pid_discipline :
    (∀ (st : ManagerState) (op : MgrOp), running_has_pid st = true →
      running_has_pid (applyOp st op) = true)
    ∧ (∀ (st : ManagerState) (name : String) (s : MCPServerStatus) (p : Nat)
        (alive : Nat → Bool), dictGet st.servers name = some s →
        s.status = "running" → s.pid = some p → alive p = false →
        ∃ s', dictGet (update_server_metrics st alive).servers name = some s'
          ∧ s'.status = "stopped" ∧ s'.pid = none)
    ∧ (∀ (st : ManagerState) (name : String) (s : MCPServerStatus) (p : Nat)
        (alive : Nat → Bool), dictGet st.servers name = some s →
        s.status = "running" → s.pid = some p → alive p = false →
        (health_check_server st name alive).2 = false
        ∧ ∃ s', dictGet (health_check_server st name alive).1.servers name = some s'
          ∧ s'.status = "stopped" ∧ s'.pid = none) := by
  refine ⟨?_, ?_, ?_⟩
  · intro st op h
    cases op with
    | startOp n f o now => exact running_has_pid_start st n f o now h
    | stopOp n f o => exact running_has_pid_stop st n f o h
    | restartOp n sOut spOut now => exact running_has_pid_restart st n sOut spOut now h
    | statusOp alive => exact running_has_pid_metrics st alive h
    | deployOp n c => exact h
    | tickOp env => exact running_has_pid_fold env st.server_configs st h
  · intro st name s p alive hs hrun hp ha
    refine ⟨{ s with status := "stopped", pid := none }, ?_, rfl, rfl⟩
    have hmap : dictGet (update_server_metrics st alive).servers name
        = (dictGet st.servers name).map (update_one_metric alive) := by
      unfold update_server_metrics
      exact dictGet_map (update_one_metric alive) st.servers name
    rw [hmap, hs]
    simp [update_one_metric, hrun, hp, ha]
  · intro st name s p alive hs hrun hp ha
    refine ⟨?_, { s with status := "stopped", pid := none }, ?_, rfl, rfl⟩
    · simp [health_check_server, hs, hrun, hp, ha]
    · simp [health_check_server, hs, hrun, hp, ha, dictGet_dictSet_self]

/-- Witness for `running_server_pid_discipline`: the invariant is preserved
by a graceful stop of `"alpha"` from `delayFiveState`. -/
theorem running_server_pid_discipline_witness :
    running_has_pid delayFiveState = true
    ∧ running_has_pid
        (applyOp delayFiveState (MgrOp.stopOp "alpha" false StopOutcome.graceful))
        = true :=
  ⟨by decide,
   running_server_pid_discipline.1 delayFiveState
     (MgrOp.stopOp "alpha" false StopOutcome.graceful) (by decide)⟩
